import Mathlib

/-!
# LLM_UI: the chat client of `static/js/main.js`

A shallow embedding of the client script: the conversation tree and the
resolution of the current path (`renderChatHistory`, `isOnPathToCurrent`),
the global variables and the parts of the document the script reads and writes
(`State`), the handlers installed on an `EventSource` by `streamChatResponse`,
and the user actions `sendMessage`, `continueMessage`, `saveEdit`,
`stopGeneration`.

Conventions of the embedding.

* The global variables of the script and the document are fields of `State`;
  every function of the script is a function on `State`.
* Message elements live in `State.elements` in creation order; the index of an
  element is its identity.  The script only ever appends message elements to
  the chat container or empties the container, so the document order of the
  attached elements is their creation order, and `MessageDiv.attached` records
  whether an element is still in the document.
* Every `fetch` issued by the script is logged in `State.requests`; every
  `EventSource` it constructs is an entry of `State.eventSources`.  The answer
  of the backend to a `fetch` is an argument of the function that awaits it
  (`none`: the call threw).  An asynchronous function is run from its call to
  its completion with that answer.
* `marked.parse`, `hljs` and the layout engine are outside the script: the
  document records the markdown source handed to the renderer.
-/

namespace LLMUI

/-! ## Conversation tree -/

/-- One entry of `node.tool_calls`: `function.name` and `function.arguments`
(the JSON text of a structured value). -/
structure ToolCall where
  name : String
  arguments : String
deriving DecidableEq, Repr

/-- A node of the conversation tree as delivered by `/api/chats/<id>/tree`. -/
inductive Node where
  | mk (id role content : String) (tool_calls : List ToolCall)
      (tool_results : List String) (files : List String) (children : List Node)
deriving Repr

namespace Node

def id : Node → String
  | .mk i _ _ _ _ _ _ => i

def role : Node → String
  | .mk _ r _ _ _ _ _ => r

def content : Node → String
  | .mk _ _ c _ _ _ _ => c

def tool_calls : Node → List ToolCall
  | .mk _ _ _ t _ _ _ => t

def tool_results : Node → List String
  | .mk _ _ _ _ t _ _ => t

def files : Node → List String
  | .mk _ _ _ _ _ f _ => f

def children : Node → List Node
  | .mk _ _ _ _ _ _ c => c

end Node

mutual
/-- Source: `isOnPathToCurrent(node, targetId)`. -/
def isOnPathToCurrent : Node → String → Bool
  | .mk id _ _ _ _ _ children, targetId =>
    if id = targetId then true else isOnPathToCurrentLoop children targetId
/-- The `for (const child of node.children)` loop of `isOnPathToCurrent`. -/
def isOnPathToCurrentLoop : List Node → String → Bool
  | [], _ => false
  | child :: rest, targetId =>
    if isOnPathToCurrent child targetId then true else isOnPathToCurrentLoop rest targetId
end

mutual
/-- The ids of all nodes of a tree, in depth-first order. -/
def Node.ids : Node → List String
  | .mk id _ _ _ _ _ children => id :: Node.idsList children
/-- The ids of all nodes of a forest. -/
def Node.idsList : List Node → List String
  | [] => []
  | child :: rest => Node.ids child ++ Node.idsList rest
end

/-! ## Document model -/

/-- A block of rendered HTML; the markdown renderer is external, so a block
records what was handed to it. -/
inductive Html where
  | toolCall (name args : String)
  | toolResult (content : String)
  | markdown (src : String)
deriving DecidableEq, Repr

def Html.isToolCall : Html → Bool
  | .toolCall _ _ => true
  | _ => false

def Html.isToolResult : Html → Bool
  | .toolResult _ => true
  | _ => false

/-- The `.message-content` element of a message: either the HTML blocks last
assigned to `innerHTML`, or (after `textContent += suffix`) a single text node
made of the text of those blocks followed by `suffix`. -/
inductive ContentDiv where
  | html (blocks : List Html)
  | text (blocks : List Html) (suffix : String)
deriving DecidableEq, Repr

/-- The Continue button of a `.message-actions` block. -/
structure ContinueButton where
  nodeId : String
  hidden : Bool
deriving DecidableEq, Repr

/-- The children of a message element that follow its `.message-content`. -/
inductive Child where
  | files (names : List String)
  | actions (editId editRole : String) (continueButton : Option ContinueButton)
  | indicator
  | timings (text title : String)
deriving DecidableEq, Repr

def Child.isIndicator : Child → Bool
  | .indicator => true
  | _ => false

/-- A `div.message` element.  `boxes` are the tool boxes inserted before the
`.message-content` element while streaming. -/
structure MessageDiv where
  className : String
  nodeId : Option String
  rawContent : Option String
  boxes : List Html
  content : ContentDiv
  tail : List Child
  attached : Bool
deriving DecidableEq, Repr

/-- The variables captured by the handlers that `streamChatResponse` installs:
`assistantDiv` (an index into `State.elements`) and `markdownBuffer`.  The
captured `contentDiv` and `timingsDiv` are reached through `assistantDiv`. -/
structure StreamClosure where
  assistantDiv : Nat
  markdownBuffer : String
deriving DecidableEq, Repr

/-- An `EventSource` object: its url, whether `close()` was called on it, and
the closure of its handlers (`none` until they are installed). -/
structure EventSourceObj where
  url : String
  closed : Bool
  closure : Option StreamClosure
deriving DecidableEq, Repr

/-- The `fetch` calls of the functions embedded here. -/
inductive Request where
  | send (chatId message : String) (files : List String)
  | continue (chatId nodeId : String)
  | edit (chatId nodeId content : String)
  | tree (chatId : String)
deriving DecidableEq, Repr

/-- The global variables of the script, the document, and the log of network
activity. -/
structure State where
  currentChatId : String
  currentNodeId : String
  currentFiles : List String
  allFiles : List (String × String)
  editingNodeId : String
  editingNodeRole : String
  isStreaming : Bool
  currentEventSource : Option Nat
  autoScrollEnabled : Bool
  userHasScrolled : Bool
  messageInput : String
  editTextarea : String
  editModalShown : Bool
  sendBtnDisabled : Bool
  sendBtnDisplay : String
  stopBtnDisplay : String
  statusBar : String
  chatTitle : String
  currentFilesDisplay : List (String × String)
  elements : List MessageDiv
  scrolledToBottom : Nat
  eventSources : List EventSourceObj
  requests : List Request
deriving DecidableEq, Repr

/-- The state of a freshly loaded page: the initial values of the globals of
the script, an empty chat container, no network activity. -/
def State.initial : State where
  currentChatId := ""
  currentNodeId := ""
  currentFiles := []
  allFiles := []
  editingNodeId := ""
  editingNodeRole := ""
  isStreaming := false
  currentEventSource := none
  autoScrollEnabled := true
  userHasScrolled := false
  messageInput := ""
  editTextarea := ""
  editModalShown := false
  sendBtnDisabled := false
  sendBtnDisplay := "block"
  stopBtnDisplay := "none"
  statusBar := ""
  chatTitle := ""
  currentFilesDisplay := []
  elements := []
  scrolledToBottom := 0
  eventSources := []
  requests := []

/-- The message elements currently in the chat container, in document order. -/
def State.chatContainer (s : State) : List MessageDiv :=
  s.elements.filter (fun e => e.attached)

/-! ## Small helpers of the script -/

/-- Source: `setStatus(message)`. -/
def setStatus (message : String) (s : State) : State :=
  { s with statusBar := message }

/-- Code points removed by `String.prototype.trim`: WhiteSpace and
LineTerminator of ECMAScript. -/
def isJsWhiteSpace (c : Char) : Bool :=
  c.toNat ∈ [0x9, 0xA, 0xB, 0xC, 0xD, 0x20, 0xA0, 0x1680, 0x2028, 0x2029, 0x202F,
    0x205F, 0x3000, 0xFEFF] || (0x2000 ≤ c.toNat && c.toNat ≤ 0x200A)

/-- The method `trim()` of a JavaScript string. -/
def jsTrim (s : String) : String :=
  ⟨((s.data.dropWhile isJsWhiteSpace).reverse.dropWhile isJsWhiteSpace).reverse⟩

/-- Source: `scrollToBottom()`.  The scroll offsets belong to the layout; the
state counts how often the container was scrolled to its bottom. -/
def scrollToBottom (s : State) : State :=
  if !s.autoScrollEnabled || !s.isStreaming then s
  else { s with scrolledToBottom := s.scrolledToBottom + 1 }

/-- Source: `handleChatScroll()`; `scrollHeight`, `scrollTop` and
`clientHeight` are read from the chat container when the event fires. -/
def handleChatScroll (scrollHeight scrollTop clientHeight : Int) (s : State) : State :=
  if !s.isStreaming then s
  else
    let isAtBottom : Bool := decide (scrollHeight - scrollTop ≤ clientHeight + 10)
    if isAtBottom && !s.autoScrollEnabled then
      { s with autoScrollEnabled := true, userHasScrolled := false }
    else if !isAtBottom && s.autoScrollEnabled && !s.userHasScrolled then
      { s with autoScrollEnabled := false, userHasScrolled := true }
    else s

/-- Removal of every `.streaming-indicator` inside one message element. -/
def MessageDiv.removeIndicators (e : MessageDiv) : MessageDiv :=
  { e with tail := e.tail.filter (fun c => !c.isIndicator) }

/-- Removal of the first `.streaming-indicator` of a message element
(`querySelector` followed by `remove()`). -/
def MessageDiv.removeFirstIndicator (e : MessageDiv) : MessageDiv :=
  { e with tail := e.tail.erase Child.indicator }

/-- The call `close()` on the `EventSource` with index `i`. -/
def closeEventSource (i : Nat) (sources : List EventSourceObj) : List EventSourceObj :=
  sources.modify (fun es => { es with closed := true }) i

/-- Source: `stopGeneration()`. -/
def stopGeneration (s : State) : State :=
  let s1 : State :=
    match s.currentEventSource with
    | some i => { s with eventSources := closeEventSource i s.eventSources,
                         currentEventSource := none }
    | none => s
  let s2 : State :=
    { s1 with isStreaming := false, autoScrollEnabled := true, userHasScrolled := false,
              sendBtnDisabled := false, stopBtnDisplay := "none", sendBtnDisplay := "block" }
  let s3 := setStatus "Generation stopped" s2
  { s3 with elements :=
              s3.elements.map (fun e => if e.attached then e.removeIndicators else e) }

/-- Source: `updateCurrentFilesDisplay()`: one entry (uuid, filename) for each
pending file that is known in `allFiles`. -/
def updateCurrentFilesDisplay (s : State) : State :=
  { s with currentFilesDisplay :=
             s.currentFiles.filterMap
               (fun uuid => (s.allFiles.lookup uuid).map (fun name => (uuid, name))) }

/-- Source: `addFileToMessage(fileUuid)`. -/
def addFileToMessage (fileUuid : String) (s : State) : State :=
  if !s.currentFiles.contains fileUuid then
    updateCurrentFilesDisplay { s with currentFiles := s.currentFiles ++ [fileUuid] }
  else s

/-- Source: `removeFileFromMessage(fileUuid)`. -/
def removeFileFromMessage (fileUuid : String) (s : State) : State :=
  updateCurrentFilesDisplay
    { s with currentFiles := s.currentFiles.filter (fun uuid => uuid != fileUuid) }

/-! ## Rendering the current path -/

/-- Source: `addMessageToUI(node)`.  The new element is appended to the chat
container; its Continue button exists exactly when the node is the current
node and has role `assistant`. -/
def addMessageToUI (node : Node) (s : State) : State :=
  let toolCalls := node.tool_calls.map (fun toolCall => Html.toolCall toolCall.name toolCall.arguments)
  let toolResults := node.tool_results.map Html.toolResult
  let main := if node.content ≠ "" then [Html.markdown node.content] else []
  let fileNames := node.files.map (fun uuid =>
    match s.allFiles.lookup uuid with
    | some filename => if filename ≠ "" then filename else "Unknown file"
    | none => "Unknown file")
  let filesHtml := if node.files.length > 0 then [Child.files fileNames] else []
  let isLastMessage : Bool := node.id = s.currentNodeId
  let isAssistant : Bool := node.role = "assistant"
  let continueButton : Option ContinueButton :=
    if isLastMessage && isAssistant then some ⟨node.id, false⟩ else none
  let messageDiv : MessageDiv :=
    { className := "message " ++ node.role
      nodeId := some node.id
      rawContent := some node.content
      boxes := []
      content := .html (toolCalls ++ toolResults ++ main)
      tail := filesHtml ++ [Child.actions node.id node.role continueButton]
      attached := true }
  { s with elements := s.elements ++ [messageDiv] }

/-- The statement `chatContainer.innerHTML = ''`: every message element leaves
the document. -/
def clearChatContainer (s : State) : State :=
  { s with elements := s.elements.map (fun e => { e with attached := false }) }

mutual
/-- Source: `renderChatHistory(node, path)`.  Besides the new state the
function returns the nodes on which its `if (isOnPathToCurrent(...))` branch
ran, in the order of the calls: the path it resolved. -/
def renderChatHistory : Node → List Node → State → State × List Node
  | .mk id role content tool_calls tool_results files children, path, s =>
    let node := Node.mk id role content tool_calls tool_results files children
    let s1 := if path.length = 0 then clearChatContainer s else s
    let currentPath := path ++ [node]
    if isOnPathToCurrent node s1.currentNodeId then
      let s2 := if role ≠ "system" then addMessageToUI node s1 else s1
      match renderNextChild children currentPath s2 with
      | (s3, rest) => (s3, node :: rest)
    else (s1, [])
/-- The `node.children.find(...)` of `renderChatHistory` together with the
recursive call on the child it returns: the children are tried in order and
the first one that satisfies the predicate is rendered. -/
def renderNextChild : List Node → List Node → State → State × List Node
  | [], _, s => (s, [])
  | child :: rest, currentPath, s =>
    if isOnPathToCurrent child s.currentNodeId || child.id = s.currentNodeId then
      renderChatHistory child currentPath s
    else renderNextChild rest currentPath s
end

/-- The body of `/api/chats/<id>/tree`. -/
structure TreeData where
  current_node_id : String
  title : String
  root : Node

/-- Source: `switchToChat(chatId)`; `data` is the answer to the tree request
(`none`: the request threw, which the function catches). -/
def switchToChat (chatId : String) (data : Option TreeData) (s : State) : State :=
  let s1 := { s with currentChatId := chatId, requests := s.requests ++ [Request.tree chatId] }
  match data with
  | none => s1
  | some data =>
    let s2 := { s1 with currentNodeId := data.current_node_id, chatTitle := data.title,
                        currentFiles := [] }
    let s3 := updateCurrentFilesDisplay s2
    (renderChatHistory data.root [] s3).1

/-! ## Streaming -/

/-- The metrics of a `timings` event: the number of keys of `data.timings`,
and the label and tooltip that the handler formats from them (the formatting
is floating-point `toFixed`; the event carries every field that is
formatted). -/
structure Timings where
  keys : Nat
  text : String
  title : String
deriving DecidableEq, Repr

/-- The parsed `event.data` of a server-sent message, by `data.type`. -/
inductive StreamEvent where
  | status (content : String)
  | timings (timings : Timings)
  | content (content : String)
  | reasoning_content (content : String)
  | tool_call (name args : String)
  | tool_result (result : String)
  | finished (node_id : String)
  | error (content : String)
  | other (type : String)
deriving DecidableEq, Repr

/-- How a call of a function of the script ended: normally, or with an
exception thrown (the state reached so far is kept). -/
inductive Completion where
  | normal (s : State)
  | thrown (s : State)

def Completion.state : Completion → State
  | .normal s => s
  | .thrown s => s

/-- The first attached message element whose `data-node-id` is `nodeId`. -/
def findMessageByNodeId (nodeId : String) (s : State) : Option Nat :=
  s.elements.findIdx? (fun e => e.attached && e.nodeId == some nodeId)

/-- The effect of `continueBtn.style.display = 'none'` on the first Continue
button among the children of a message element. -/
def hideFirstContinue : List Child → List Child
  | [] => []
  | .actions editId editRole (some button) :: rest =>
    .actions editId editRole (some { button with hidden := true }) :: rest
  | c :: rest => c :: hideFirstContinue rest

def setFirstTimings (text title : String) : List Child → List Child
  | [] => []
  | .timings _ _ :: rest => .timings text title :: rest
  | c :: rest => c :: setFirstTimings text title rest

/-- Assignment to `timingsDiv`, the `.message-timings` element appended last. -/
def setTimingsDiv (text title : String) (tail : List Child) : List Child :=
  (setFirstTimings text title tail.reverse).reverse

/-- Update of the element `assistantDiv` of the document. -/
def modifyElement (assistantDiv : Nat) (f : MessageDiv → MessageDiv) (s : State) : State :=
  { s with elements := s.elements.modify f assistantDiv }

/-- Assignment to the captured variable `markdownBuffer` of the handlers of
`eventSource`. -/
def setMarkdownBuffer (eventSource : Nat) (markdownBuffer : String) (s : State) : State :=
  let assign : EventSourceObj → EventSourceObj := fun es =>
    { es with closure := es.closure.map (fun c => { c with markdownBuffer := markdownBuffer }) }
  { s with eventSources := s.eventSources.modify assign eventSource }

/-- The common end of `streamChatResponse`: append `timingsDiv` to
`assistantDiv`, start from an empty `markdownBuffer`, install the handlers. -/
def attachStreamHandlers (eventSource assistantDiv : Nat) (s : State) : State :=
  let s1 := modifyElement assistantDiv
    (fun e => { e with tail := e.tail ++ [Child.timings "" ""] }) s
  let install : EventSourceObj → EventSourceObj := fun es =>
    { es with closure := some ⟨assistantDiv, ""⟩ }
  { s1 with eventSources := s1.eventSources.modify install eventSource }

/-- Source: `streamChatResponse(nodeId, isContinuation)` up to the
installation of the handlers.  In continuation mode the function throws when
no element carries `nodeId`. -/
def streamChatResponse (nodeId : String) (isContinuation : Bool) (s : State) : Completion :=
  let eventSource := s.eventSources.length
  let s1 : State :=
    { s with
      eventSources := s.eventSources ++
        [⟨"/api/chats/" ++ s.currentChatId ++ "/stream/" ++ nodeId, false, none⟩]
      currentEventSource := some eventSource }
  if isContinuation then
    match findMessageByNodeId nodeId s1 with
    | none => .thrown s1
    | some assistantDiv =>
      let s2 := modifyElement assistantDiv
        (fun e => { e with tail := hideFirstContinue e.tail ++ [Child.indicator] }) s1
      .normal (attachStreamHandlers eventSource assistantDiv s2)
  else
    let assistantDiv := s1.elements.length
    let s2 : State :=
      { s1 with elements := s1.elements ++
          [{ className := "message assistant", nodeId := none, rawContent := none,
             boxes := [], content := .html [], tail := [Child.indicator], attached := true }] }
    let s3 := scrollToBottom s2
    .normal (attachStreamHandlers eventSource assistantDiv s3)

/-- The statement `contentDiv.textContent += suffix`. -/
def ContentDiv.appendText (suffix : String) : ContentDiv → ContentDiv
  | .html blocks => .text blocks suffix
  | .text blocks old => .text blocks (old ++ suffix)

/-- Source: the body of `eventSource.onmessage` for a closure `c`. -/
def handleMessage (eventSource : Nat) (c : StreamClosure) (event : StreamEvent)
    (s : State) : State :=
  match event with
  | .status content => setStatus content s
  | .timings timingsData =>
    if timingsData.keys > 0 then
      modifyElement c.assistantDiv
        (fun e => { e with tail := setTimingsDiv timingsData.text timingsData.title e.tail }) s
    else s
  | .content content =>
    let markdownBuffer := c.markdownBuffer ++ content
    let s1 := setMarkdownBuffer eventSource markdownBuffer s
    let s2 := modifyElement c.assistantDiv
      (fun e => { e with content := .html [Html.markdown markdownBuffer] }) s1
    scrollToBottom s2
  | .reasoning_content _ => s
  | .tool_call name args =>
    scrollToBottom (modifyElement c.assistantDiv
      (fun e => { e with boxes := e.boxes ++ [Html.toolCall name args] }) s)
  | .tool_result result =>
    scrollToBottom (modifyElement c.assistantDiv
      (fun e => { e with boxes := e.boxes ++ [Html.toolResult result] }) s)
  | .finished node_id =>
    let s1 := modifyElement c.assistantDiv
      (fun e =>
        let e1 := e.removeFirstIndicator
        { e1 with nodeId := some node_id, rawContent := some c.markdownBuffer,
                  tail := e1.tail ++ [Child.actions node_id "assistant" (some ⟨node_id, false⟩)] })
      s
    stopGeneration { s1 with currentNodeId := node_id }
  | .error content =>
    let s1 := modifyElement c.assistantDiv
      (fun e =>
        let e1 := e.removeFirstIndicator
        { e1 with content := e1.content.appendText ("\n\nError: " ++ content) })
      s
    stopGeneration s1
  | .other _ => s

/-- The closure of the handlers of an `EventSource` that still dispatches
events: the source exists, was not closed, and has its handlers installed. -/
def liveClosure (eventSource : Nat) (s : State) : Option StreamClosure :=
  match s.eventSources[eventSource]? with
  | some es => if es.closed then none else es.closure
  | none => none

/-- Delivery of one server-sent message to `eventSource.onmessage`.  A closed
source dispatches nothing. -/
def onmessage (eventSource : Nat) (event : StreamEvent) (s : State) : State :=
  match liveClosure eventSource s with
  | some c => handleMessage eventSource c event s
  | none => s

/-- Delivery of a channel-level error to `eventSource.onerror`. -/
def onerror (eventSource : Nat) (s : State) : State :=
  match liveClosure eventSource s with
  | some c => stopGeneration (modifyElement c.assistantDiv (fun e => e.removeFirstIndicator) s)
  | none => s

/-- Delivery of a sequence of messages in arrival order. -/
def deliver (eventSource : Nat) (events : List StreamEvent) (s : State) : State :=
  events.foldl (fun s event => onmessage eventSource event s) s

/-! ## User actions -/

/-- The body of the answer to `/api/chats/<id>/send`; an absent or empty
`updated_title` is falsy. -/
structure SendResult where
  success : Bool
  node_id : String
  updated_title : String
  error : String
deriving DecidableEq, Repr

/-- The body of the answer to `/api/chats/<id>/continue/<nodeId>`. -/
structure ContinueResult where
  success : Bool
  error : String
deriving DecidableEq, Repr

/-- The body of the answer to `/api/chats/<id>/edit`. -/
structure EditResult where
  success : Bool
  node_id : String
  should_generate : Bool
deriving DecidableEq, Repr

/-- Source: `sendMessage()`.  `response` is the answer to the send request
(`none`: `fetch` or `response.json()` threw); `loadChatList` is the reload of
the sidebar, which catches its own errors. -/
def sendMessage (response : Option SendResult) (loadChatList : State → State)
    (s : State) : State :=
  let message := jsTrim s.messageInput
  if message = "" || s.isStreaming then s
  else
    let s1 : State :=
      { s with isStreaming := true, autoScrollEnabled := true, userHasScrolled := false,
               sendBtnDisplay := "none", stopBtnDisplay := "block" }
    let s2 := setStatus "Sending message..." s1
    let s3 : State :=
      { s2 with requests := s2.requests ++ [Request.send s2.currentChatId message s2.currentFiles] }
    let onCatch : State → State := fun s => stopGeneration (setStatus "Error sending message" s)
    match response with
    | none => onCatch s3
    | some result =>
      if !result.success then onCatch s3
      else
        let userNode := Node.mk result.node_id "user" message [] [] s3.currentFiles []
        let s4 := addMessageToUI userNode s3
        let s5 := updateCurrentFilesDisplay { s4 with messageInput := "", currentFiles := [] }
        let s6 : State := { s5 with currentNodeId := result.node_id }
        let s7 : State :=
          if result.updated_title ≠ "" then
            loadChatList { s6 with chatTitle := result.updated_title }
          else s6
        match streamChatResponse result.node_id false s7 with
        | .normal s8 => s8
        | .thrown s8 => onCatch s8

/-- Source: `continueMessage(nodeId)`; `response` is the answer to the
continue request (`none`: the call threw). -/
def continueMessage (nodeId : String) (response : Option ContinueResult) (s : State) : State :=
  if s.isStreaming then s
  else
    let s1 : State :=
      { s with isStreaming := true, autoScrollEnabled := true, userHasScrolled := false,
               sendBtnDisplay := "none", stopBtnDisplay := "block" }
    let s2 := setStatus "Continuing generation..." s1
    let s3 : State :=
      { s2 with requests := s2.requests ++ [Request.continue s2.currentChatId nodeId] }
    let onCatch : State → State := fun s => stopGeneration (setStatus "Error continuing message" s)
    match response with
    | none => onCatch s3
    | some result =>
      if !result.success then onCatch s3
      else
        match streamChatResponse nodeId true s3 with
        | .normal s4 => s4
        | .thrown s4 => onCatch s4

/-- Source: `editMessage(nodeId, role)`.  When no element carries `nodeId`
the function throws after the two assignments. -/
def editMessage (nodeId role : String) (s : State) : State :=
  let s1 : State := { s with editingNodeId := nodeId, editingNodeRole := role }
  match findMessageByNodeId nodeId s1 with
  | none => s1
  | some i =>
    let rawContent := ((s1.elements[i]?).bind (fun e => e.rawContent)).getD ""
    { s1 with editTextarea := rawContent, editModalShown := true }

/-- Source: `closeEditModal()`. -/
def closeEditModal (s : State) : State :=
  { s with editModalShown := false, editingNodeId := "", editingNodeRole := "" }

/-- Source: `saveEdit()`; `response` is the answer to the edit request and
`tree` the answer to the tree request of the `switchToChat` that follows a
successful edit. -/
def saveEdit (response : Option EditResult) (tree : Option TreeData) (s : State) : State :=
  let newContent := s.editTextarea
  let s1 := setStatus "Saving edit..." s
  let s2 : State :=
    { s1 with requests := s1.requests ++
                [Request.edit s1.currentChatId s1.editingNodeId newContent] }
  match response with
  | none => setStatus "Error saving edit" s2
  | some result =>
    if result.success then
      let s3 := closeEditModal s2
      let s4 := switchToChat s3.currentChatId tree s3
      if result.should_generate then
        let s5 : State :=
          { s4 with isStreaming := true, autoScrollEnabled := true, userHasScrolled := false,
                    sendBtnDisplay := "none", stopBtnDisplay := "block" }
        let s6 := setStatus "Generating response..." s5
        match streamChatResponse result.node_id false s6 with
        | .normal s7 => s7
        | .thrown s7 => stopGeneration (setStatus "Error generating response" s7)
      else s4
    else s2

/-! ## Observations used in the statements -/

/-- What is asked of a resolved path `p` that starts at `n` and leads to the
node with id `t`. -/
def IsPathTo (t : String) (n : Node) (p : List Node) : Prop :=
  p.head? = some n ∧ (∃ last, p.getLast? = some last ∧ last.id = t) ∧
    List.Chain' (fun parent child => child ∈ parent.children) p

/-- The tree root(system) -> A(user, "hi") -> B(assistant, "hello"). -/
def exampleB : Node := .mk "B" "assistant" "hello" [] [] [] []

def exampleA : Node := .mk "A" "user" "hi" [] [] [] [exampleB]

def exampleRoot : Node := .mk "root" "system" "" [] [] [] [exampleA]

/-- A loaded page showing chat `c1` with current node `B`. -/
def exampleState : State :=
  { State.initial with currentChatId := "c1", currentNodeId := "B" }

/-- The events that a running stream delivers before it ends: `status`,
`timings`, `content`, `reasoning_content`, `tool_call`, `tool_result`. -/
def StreamEvent.isProgress : StreamEvent → Bool
  | .status _ => true
  | .timings _ => true
  | .content _ => true
  | .reasoning_content _ => true
  | .tool_call _ _ => true
  | .tool_result _ => true
  | _ => false

/-- The text fragment carried by a `content` event. -/
def StreamEvent.fragment? : StreamEvent → Option String
  | .content fragment => some fragment
  | _ => none

/-- The content fragments of an event sequence, in arrival order. -/
def contentFragments (events : List StreamEvent) : List String :=
  events.filterMap StreamEvent.fragment?

def StreamEvent.isToolCall : StreamEvent → Bool
  | .tool_call _ _ => true
  | _ => false

/-- The accumulated content of the stream on `eventSource`: the value of the
captured variable `markdownBuffer`. -/
def State.markdownBuffer (eventSource : Nat) (s : State) : Option String :=
  ((s.eventSources[eventSource]?).bind (fun es => es.closure)).map (fun c => c.markdownBuffer)

/-- The tool boxes of the message element `assistantDiv`, in document order. -/
def State.toolBoxes (assistantDiv : Nat) (s : State) : List Html :=
  ((s.elements[assistantDiv]?).map (fun e => e.boxes)).getD []

def State.toolCallBlocks (assistantDiv : Nat) (s : State) : List Html :=
  (s.toolBoxes assistantDiv).filter Html.isToolCall

def State.toolResultBlocks (assistantDiv : Nat) (s : State) : List Html :=
  (s.toolBoxes assistantDiv).filter Html.isToolResult

/-- The HTML blocks held by a `.message-content` element. -/
def ContentDiv.blocks : ContentDiv → List Html
  | .html blocks => blocks
  | .text blocks _ => blocks

/-- The blocks shown in the `.message-content` of the element `assistantDiv`. -/
def State.contentBlocks (assistantDiv : Nat) (s : State) : List Html :=
  ((s.elements[assistantDiv]?).map (fun e => e.content.blocks)).getD []

/-- The tool box that a `tool_call` or `tool_result` event inserts. -/
def StreamEvent.box? : StreamEvent → Option Html
  | .tool_call name args => some (Html.toolCall name args)
  | .tool_result result => some (Html.toolResult result)
  | _ => none

/-- The tool boxes inserted by an event sequence, in arrival order. -/
def toolBoxesOf (events : List StreamEvent) : List Html :=
  events.filterMap StreamEvent.box?

/-- The page of `exampleState` after its tree was rendered, with the message
"next" typed and one pending attachment. -/
def exampleRendered : State :=
  { (renderChatHistory exampleRoot [] exampleState).1 with
    messageInput := "next", currentFiles := ["f1"] }

/-- The page of `exampleRendered` after `sendMessage()` was answered with the
user node `U`: the stream of the reply is open on source 0 and fills the
element 3. -/
def exampleStreaming : State :=
  sendMessage (some ⟨true, "U", "", ""⟩) id exampleRendered

/-- The streaming page with a further message typed. -/
def exampleBusy : State :=
  { exampleStreaming with messageInput := "again" }

/-- The same stream after the event `content{"partial"}`. -/
def examplePartial : State :=
  deliver 0 [StreamEvent.content "partial"] exampleStreaming

/-- The page of `exampleRendered` with a blank message typed. -/
def exampleBlank : State :=
  { exampleRendered with messageInput := "  \n\t " }

/-- The stream is running; the user opened the edit dialog of node `A` and
changed its text to "hi there". -/
def exampleEditing : State :=
  { editMessage "A" "user" exampleStreaming with editTextarea := "hi there" }

/-- The backend accepts the edit of a user message and asks for a reply. -/
def exampleEditResult : EditResult :=
  { success := true, node_id := "A2", should_generate := true }

/-- The tree after the edit: root -> A2(user, "hi there"), current node A2. -/
def exampleEditedTree : TreeData :=
  { current_node_id := "A2", title := "chat",
    root := .mk "root" "system" "" [] [] [] [.mk "A2" "user" "hi there" [] [] [] []] }

/-- A page whose `currentNodeId` names no node of `exampleRoot`. -/
def exampleDesync : State :=
  { exampleState with currentNodeId := "Z" }

/-- The rendered example page after `continueMessage("B")` was accepted: a
continuation stream is open on source 0 and attached to element 1, the
element of `B`, which shows "hello". -/
def exampleContinuing : State :=
  continueMessage "B" (some ⟨true, ""⟩) exampleRendered

/-! ## Auto-scroll -/

/-- The stream-start step: the assignments with which the `try` block of
`sendMessage` and of `continueMessage`, and the `should_generate` branch of
`saveEdit`, begin, up to their call of `setStatus`. -/
def startStream (s : State) : State :=
  { s with isStreaming := true, autoScrollEnabled := true, userHasScrolled := false,
           sendBtnDisplay := "none", stopBtnDisplay := "block" }

/-- One step of a run of the page, as far as the auto-scroll flags are
concerned: a scroll event at any scroll position, `stopGeneration`, a
stream-start step, a whole call of `sendMessage`, `continueMessage` or
`saveEdit`, the delivery of a stream message or of a channel error, and
`streaming b`, by which `isStreaming` takes any value between two steps. -/
inductive PageStep where
  | scroll (scrollHeight scrollTop clientHeight : Int)
  | stop
  | start
  | send (response : Option SendResult) (loadChatList : State → State)
  | continue (nodeId : String) (response : Option ContinueResult)
  | edit (response : Option EditResult) (tree : Option TreeData)
  | message (eventSource : Nat) (event : StreamEvent)
  | error (eventSource : Nat)
  | streaming (value : Bool)

def PageStep.apply : PageStep → State → State
  | .scroll scrollHeight scrollTop clientHeight, s =>
    handleChatScroll scrollHeight scrollTop clientHeight s
  | .stop, s => stopGeneration s
  | .start, s => startStream s
  | .send response loadChatList, s => sendMessage response loadChatList s
  | .continue nodeId response, s => continueMessage nodeId response s
  | .edit response tree, s => saveEdit response tree s
  | .message eventSource event, s => onmessage eventSource event s
  | .error eventSource, s => onerror eventSource s
  | .streaming value, s => { s with isStreaming := value }

/-- The reload of the sidebar handed to a `send` step leaves the auto-scroll
flags alone (the `loadChatList` of the script assigns neither). -/
def PageStep.SidebarKeepsFlags : PageStep → Prop
  | .send _ loadChatList => ∀ s, (loadChatList s).autoScrollEnabled = s.autoScrollEnabled ∧
      (loadChatList s).userHasScrolled = s.userHasScrolled
  | _ => True

/-- The state after a sequence of steps, taken in order. -/
def runSteps (steps : List PageStep) (s : State) : State :=
  steps.foldl (fun s step => step.apply s) s

/-- The auto-scroll flags of `t` are those of `s`, or were reset. -/
def FlagsKeptOrReset (s t : State) : Prop :=
  (t.autoScrollEnabled = s.autoScrollEnabled ∧ t.userHasScrolled = s.userHasScrolled) ∨
    (t.autoScrollEnabled = true ∧ t.userHasScrolled = false)

/-! # Theorems -/

/-! ## Path resolution -/

mutual
theorem isOnPathToCurrent_iff (t : String) :
    ∀ n : Node, isOnPathToCurrent n t = true ↔ t ∈ n.ids
  | .mk id _ _ _ _ _ children => by
    have ih := isOnPathToCurrentLoop_iff t children
    rw [isOnPathToCurrent, Node.ids]
    by_cases h : id = t
    · simp [h]
    · have h2 : ¬ t = id := fun e => h e.symm
      simp [h, h2, ih]
theorem isOnPathToCurrentLoop_iff (t : String) :
    ∀ cs : List Node, isOnPathToCurrentLoop cs t = true ↔ t ∈ Node.idsList cs
  | [] => by simp [isOnPathToCurrentLoop, Node.idsList]
  | c :: cs => by
    have ih1 := isOnPathToCurrent_iff t c
    have ih2 := isOnPathToCurrentLoop_iff t cs
    rw [isOnPathToCurrentLoop, Node.idsList]
    by_cases h : isOnPathToCurrent c t = true
    · simp [h, ih1.mp h]
    · have h3 : t ∉ c.ids := fun e => h (ih1.mpr e)
      simp [h, h3, ih2]
end

theorem Node.ids_eq (n : Node) : n.ids = n.id :: Node.idsList n.children := by
  cases n; simp [Node.ids, Node.id, Node.children]

theorem Node.id_mem_ids (n : Node) : n.id ∈ n.ids := by
  rw [Node.ids_eq]; exact List.mem_cons_self _ _

@[simp] theorem addMessageToUI_currentNodeId (node : Node) (s : State) :
    (addMessageToUI node s).currentNodeId = s.currentNodeId := rfl

@[simp] theorem clearChatContainer_currentNodeId (s : State) :
    (clearChatContainer s).currentNodeId = s.currentNodeId := rfl

/-- The state in which `renderChatHistory` tests its node: the container is
emptied by the root call. -/
theorem renderChatHistory_eq (n : Node) (path : List Node) (s : State) :
    renderChatHistory n path s =
      if isOnPathToCurrent n s.currentNodeId then
        ((renderNextChild n.children (path ++ [n])
            (if n.role ≠ "system" then
              addMessageToUI n (if path.length = 0 then clearChatContainer s else s)
             else (if path.length = 0 then clearChatContainer s else s))).1,
         n :: (renderNextChild n.children (path ++ [n])
            (if n.role ≠ "system" then
              addMessageToUI n (if path.length = 0 then clearChatContainer s else s)
             else (if path.length = 0 then clearChatContainer s else s))).2)
      else (if path.length = 0 then clearChatContainer s else s, []) := by
  cases n with
  | mk id role content tc tr fs children =>
    rw [renderChatHistory]
    by_cases hp : path.length = 0 <;> simp [hp, Node.children, Node.role]

theorem renderNextChild_cons (c : Node) (cs cp : List Node) (s : State) :
    renderNextChild (c :: cs) cp s =
      if isOnPathToCurrent c s.currentNodeId || c.id = s.currentNodeId then
        renderChatHistory c cp s
      else renderNextChild cs cp s := by
  rw [renderNextChild]

theorem renderChatHistory_currentNodeId_step (n : Node) (path : List Node) (s : State)
    (ih : ∀ (cp : List Node) (s : State),
      (renderNextChild n.children cp s).1.currentNodeId = s.currentNodeId) :
    (renderChatHistory n path s).1.currentNodeId = s.currentNodeId := by
  rw [renderChatHistory_eq]
  split_ifs <;> simp [ih]

mutual
theorem renderChatHistory_currentNodeId :
    ∀ (n : Node) (path : List Node) (s : State),
      (renderChatHistory n path s).1.currentNodeId = s.currentNodeId
  | .mk _ _ _ _ _ _ children, path, s =>
    renderChatHistory_currentNodeId_step _ path s (renderNextChild_currentNodeId children)
theorem renderNextChild_currentNodeId :
    ∀ (cs : List Node) (cp : List Node) (s : State),
      (renderNextChild cs cp s).1.currentNodeId = s.currentNodeId
  | [], _, _ => by simp [renderNextChild]
  | c :: cs, cp, s => by
    rw [renderNextChild]
    split
    · exact renderChatHistory_currentNodeId c cp s
    · exact renderNextChild_currentNodeId cs cp s
end

/-- The resolved path holds the ids of nodes of the tree, in tree order. -/
theorem renderChatHistory_sublist_step (n : Node) (path : List Node) (s : State)
    (ih : ∀ (cp : List Node) (s : State),
      ((renderNextChild n.children cp s).2.map Node.id).Sublist (Node.idsList n.children)) :
    ((renderChatHistory n path s).2.map Node.id).Sublist n.ids := by
  rw [renderChatHistory_eq, Node.ids_eq]
  by_cases hon : isOnPathToCurrent n s.currentNodeId = true
  · rw [if_pos hon]
    exact (ih _ _).cons₂ n.id
  · rw [if_neg hon]
    exact List.nil_sublist _

mutual
theorem renderChatHistory_sublist :
    ∀ (n : Node) (path : List Node) (s : State),
      ((renderChatHistory n path s).2.map Node.id).Sublist n.ids
  | .mk _ _ _ _ _ _ children, path, s =>
    renderChatHistory_sublist_step _ path s (renderNextChild_sublist children)
theorem renderNextChild_sublist :
    ∀ (cs : List Node) (cp : List Node) (s : State),
      ((renderNextChild cs cp s).2.map Node.id).Sublist (Node.idsList cs)
  | [], _, _ => by simp [renderNextChild]
  | c :: cs, cp, s => by
    rw [renderNextChild, Node.idsList]
    split
    · exact (renderChatHistory_sublist c cp s).trans (List.sublist_append_left _ _)
    · exact (renderNextChild_sublist cs cp s).trans (List.sublist_append_right _ _)
end

theorem renderChatHistory_path_step (t : String) (n : Node) (path : List Node) (s : State)
    (hs : s.currentNodeId = t) (hn : t ∈ n.ids)
    (ih : ∀ (cp : List Node) (s : State), s.currentNodeId = t →
      (t ∈ Node.idsList n.children →
        ∃ c, c ∈ n.children ∧ IsPathTo t c (renderNextChild n.children cp s).2) ∧
      (t ∉ Node.idsList n.children → (renderNextChild n.children cp s).2 = [])) :
    IsPathTo t n (renderChatHistory n path s).2 := by
  rw [renderChatHistory_eq]
  have hon : isOnPathToCurrent n s.currentNodeId = true := by
    rw [hs]; exact (isOnPathToCurrent_iff t n).mpr hn
  rw [if_pos hon]
  generalize hs2 : (if n.role ≠ "system" then
      addMessageToUI n (if path.length = 0 then clearChatContainer s else s)
    else (if path.length = 0 then clearChatContainer s else s)) = s2
  have hs2t : s2.currentNodeId = t := by
    rw [← hs2, ← hs]; split_ifs <;> rfl
  obtain ⟨ih1, ih2⟩ := ih (path ++ [n]) s2 hs2t
  by_cases hc : t ∈ Node.idsList n.children
  · obtain ⟨c, hcm, hhead, ⟨last, hlast, hid⟩, hchain⟩ := ih1 hc
    generalize (renderNextChild n.children (path ++ [n]) s2).2 = rest at hhead hlast hchain
    cases rest with
    | nil => simp at hhead
    | cons r rest =>
      simp only [List.head?_cons, Option.some.injEq] at hhead
      subst hhead
      refine ⟨rfl, ⟨last, ?_, hid⟩, ?_⟩
      · rw [List.getLast?_cons_cons]; exact hlast
      · exact List.Chain'.cons hcm hchain
  · rw [ih2 hc]
    refine ⟨rfl, ⟨n, rfl, ?_⟩, List.chain'_singleton n⟩
    rw [Node.ids_eq, List.mem_cons] at hn
    rcases hn with h | h
    · exact h.symm
    · exact absurd h hc

mutual
theorem renderChatHistory_path (t : String) :
    ∀ (n : Node) (path : List Node) (s : State), s.currentNodeId = t → t ∈ n.ids →
      IsPathTo t n (renderChatHistory n path s).2
  | .mk _ _ _ _ _ _ children, path, s, hs, hn =>
    renderChatHistory_path_step t _ path s hs hn (renderNextChild_path t children)
theorem renderNextChild_path (t : String) :
    ∀ (cs : List Node) (cp : List Node) (s : State), s.currentNodeId = t →
      (t ∈ Node.idsList cs → ∃ c, c ∈ cs ∧ IsPathTo t c (renderNextChild cs cp s).2) ∧
      (t ∉ Node.idsList cs → (renderNextChild cs cp s).2 = [])
  | [], _, _, _ => by simp [renderNextChild, Node.idsList]
  | c :: cs, cp, s, hs => by
    have ihc := renderChatHistory_path t c cp s hs
    have ihcs := renderNextChild_path t cs cp s hs
    have hiff := isOnPathToCurrent_iff t c
    rw [renderNextChild, Node.idsList, hs]
    by_cases hc : t ∈ c.ids
    · have h1 : (isOnPathToCurrent c t || decide (c.id = t)) = true := by
        simp [hiff.mpr hc]
      rw [if_pos h1]
      exact ⟨fun _ => ⟨c, List.mem_cons_self _ _, ihc hc⟩, fun h => absurd (List.mem_append_left _ hc) h⟩
    · have hid : ¬ c.id = t := fun e => hc (e ▸ Node.id_mem_ids c)
      have h1 : ¬ (isOnPathToCurrent c t || decide (c.id = t)) = true := by
        simp only [hid, decide_False, Bool.or_false]
        exact fun h => hc (hiff.mp h)
      rw [if_neg h1]
      constructor
      · intro h
        rcases List.mem_append.mp h with h | h
        · exact absurd h hc
        · obtain ⟨d, hd, hp⟩ := ihcs.1 h
          exact ⟨d, List.mem_cons_of_mem _ hd, hp⟩
      · intro h
        exact ihcs.2 (fun h2 => h (List.mem_append_right _ h2))
end

theorem foldl_append_eq_join (l : List String) (init : String) :
    l.foldl (fun r s => r ++ s) init = init ++ String.join l := by
  induction l generalizing init with
  | nil => simp [String.join]
  | cons a l ih =>
    rw [List.foldl_cons, ih]
    show init ++ a ++ String.join l = init ++ List.foldl (fun r s => r ++ s) ("" ++ a) l
    rw [ih ("" ++ a)]
    simp [String.append_assoc]

theorem join_nil : String.join [] = "" := rfl

theorem join_cons (a : String) (l : List String) :
    String.join (a :: l) = a ++ String.join l := by
  rw [String.join, List.foldl_cons, foldl_append_eq_join]; simp

theorem liveClosure_congr (k : Nat) {s t : State} (h : t.eventSources = s.eventSources) :
    liveClosure k t = liveClosure k s := by
  simp [liveClosure, h]

@[simp] theorem scrollToBottom_eventSources (s : State) :
    (scrollToBottom s).eventSources = s.eventSources := by
  unfold scrollToBottom; split <;> rfl

@[simp] theorem scrollToBottom_elements (s : State) :
    (scrollToBottom s).elements = s.elements := by
  unfold scrollToBottom; split <;> rfl

@[simp] theorem scrollToBottom_currentNodeId (s : State) :
    (scrollToBottom s).currentNodeId = s.currentNodeId := by
  unfold scrollToBottom; split <;> rfl

@[simp] theorem scrollToBottom_currentEventSource (s : State) :
    (scrollToBottom s).currentEventSource = s.currentEventSource := by
  unfold scrollToBottom; split <;> rfl

@[simp] theorem modifyElement_eventSources (a : Nat) (f : MessageDiv → MessageDiv) (s : State) :
    (modifyElement a f s).eventSources = s.eventSources := rfl

@[simp] theorem modifyElement_elements (a : Nat) (f : MessageDiv → MessageDiv) (s : State) :
    (modifyElement a f s).elements = s.elements.modify f a := rfl

@[simp] theorem setMarkdownBuffer_elements (k : Nat) (b : String) (s : State) :
    (setMarkdownBuffer k b s).elements = s.elements := rfl

theorem liveClosure_setMarkdownBuffer (k : Nat) (b : String) (s : State) :
    liveClosure k (setMarkdownBuffer k b s) =
      (liveClosure k s).map (fun c => { c with markdownBuffer := b }) := by
  simp only [liveClosure, setMarkdownBuffer, List.getElem?_modify_eq]
  cases h : s.eventSources[k]? with
  | none => simp
  | some es =>
    simp only [Option.map_some', Option.map_eq_map]
    split <;> simp

/-- The tool boxes of an element after an update of the same element. -/
theorem boxes_modify (f : MessageDiv → MessageDiv) (a i : Nat) (l : List MessageDiv)
    (hf : ∀ e, (f e).boxes = e.boxes) :
    ((l.modify f a)[i]?).map (fun e => e.boxes) = (l[i]?).map (fun e => e.boxes) := by
  rw [List.getElem?_modify]
  cases l[i]? with
  | none => rfl
  | some e => by_cases h : a = i <;> simp [h, hf]

/-- One progress event keeps the stream live; a `content` event appends its
fragment to `markdownBuffer`. -/
theorem liveClosure_onmessage_progress (k a : Nat) (buf : String) (ev : StreamEvent) (s : State)
    (hlive : liveClosure k s = some ⟨a, buf⟩) (hev : ev.isProgress = true) :
    liveClosure k (onmessage k ev s) = some ⟨a, buf ++ String.join (contentFragments [ev])⟩ := by
  rw [onmessage, hlive]
  cases ev with
  | status c => simpa [handleMessage, contentFragments, StreamEvent.fragment?, String.join, setStatus, liveClosure] using hlive
  | timings t =>
    simp only [handleMessage]
    split
    · rw [liveClosure_congr k (modifyElement_eventSources _ _ _), hlive]
      simp [contentFragments, StreamEvent.fragment?, join_nil]
    · simpa [contentFragments, StreamEvent.fragment?, join_nil] using hlive
  | content c =>
    simp only [handleMessage]
    rw [liveClosure_congr k (scrollToBottom_eventSources _),
      liveClosure_congr k (modifyElement_eventSources _ _ _), liveClosure_setMarkdownBuffer, hlive]
    simp [contentFragments, StreamEvent.fragment?, join_cons, join_nil]
  | reasoning_content c => simpa [handleMessage, contentFragments, StreamEvent.fragment?, join_nil] using hlive
  | tool_call n x =>
    simp only [handleMessage]
    rw [liveClosure_congr k (scrollToBottom_eventSources _),
      liveClosure_congr k (modifyElement_eventSources _ _ _), hlive]
    simp [contentFragments, StreamEvent.fragment?, join_nil]
  | tool_result r =>
    simp only [handleMessage]
    rw [liveClosure_congr k (scrollToBottom_eventSources _),
      liveClosure_congr k (modifyElement_eventSources _ _ _), hlive]
    simp [contentFragments, StreamEvent.fragment?, join_nil]
  | finished x => simp [StreamEvent.isProgress] at hev
  | error x => simp [StreamEvent.isProgress] at hev
  | other x => simp [StreamEvent.isProgress] at hev

theorem contentFragments_cons (ev : StreamEvent) (events : List StreamEvent) :
    String.join (contentFragments (ev :: events)) =
      String.join (contentFragments [ev]) ++ String.join (contentFragments events) := by
  cases h : ev.fragment? with
  | none => simp [contentFragments, h, join_nil]
  | some c => simp [contentFragments, h, join_cons, join_nil]

theorem deliver_cons (k : Nat) (ev : StreamEvent) (events : List StreamEvent) (s : State) :
    deliver k (ev :: events) s = deliver k events (onmessage k ev s) := rfl

theorem deliver_append (k : Nat) (xs ys : List StreamEvent) (s : State) :
    deliver k (xs ++ ys) s = deliver k ys (deliver k xs s) := by
  simp [deliver, List.foldl_append]

/-- A sequence of progress events keeps the stream live and leaves in
`markdownBuffer` the old buffer followed by the fragments in arrival order. -/
theorem liveClosure_deliver_progress (k a : Nat) (events : List StreamEvent) :
    ∀ (buf : String) (s : State), liveClosure k s = some ⟨a, buf⟩ →
      (∀ ev ∈ events, ev.isProgress = true) →
      liveClosure k (deliver k events s) =
        some ⟨a, buf ++ String.join (contentFragments events)⟩ := by
  induction events with
  | nil => intro buf s h _; simpa [deliver, contentFragments, join_nil] using h
  | cons ev events ih =>
    intro buf s h hall
    rw [deliver_cons, contentFragments_cons, ← String.append_assoc]
    exact ih _ _ (liveClosure_onmessage_progress k a buf ev s h (hall ev (List.mem_cons_self _ _)))
      (fun e he => hall e (List.mem_cons_of_mem _ he))


/-- A progress event keeps the element `assistantDiv` in place; a tool event
appends its box to the tool boxes of the element, any other leaves them. -/
theorem boxes_onmessage_progress (k a : Nat) (buf : String) (ev : StreamEvent) (s : State)
    (e : MessageDiv) (hlive : liveClosure k s = some ⟨a, buf⟩) (hev : ev.isProgress = true)
    (he : s.elements[a]? = some e) :
    ∃ e1, (onmessage k ev s).elements[a]? = some e1 ∧
      e1.boxes = e.boxes ++ toolBoxesOf [ev] := by
  rw [onmessage, hlive]
  cases ev with
  | status c => exact ⟨e, by simpa [handleMessage, setStatus] using he, by simp [toolBoxesOf, StreamEvent.box?]⟩
  | timings t =>
    simp only [handleMessage]
    split
    · simp [List.getElem?_modify_eq, he, toolBoxesOf, StreamEvent.box?]
    · exact ⟨e, he, by simp [toolBoxesOf, StreamEvent.box?]⟩
  | content c =>
    simp [handleMessage, List.getElem?_modify_eq, he, toolBoxesOf, StreamEvent.box?]
  | reasoning_content c =>
    exact ⟨e, by simpa [handleMessage] using he, by simp [toolBoxesOf, StreamEvent.box?]⟩
  | tool_call n x =>
    simp [handleMessage, List.getElem?_modify_eq, he, toolBoxesOf, StreamEvent.box?]
  | tool_result r =>
    simp [handleMessage, List.getElem?_modify_eq, he, toolBoxesOf, StreamEvent.box?]
  | finished x => simp [StreamEvent.isProgress] at hev
  | error x => simp [StreamEvent.isProgress] at hev
  | other x => simp [StreamEvent.isProgress] at hev

theorem toolBoxesOf_cons (ev : StreamEvent) (events : List StreamEvent) :
    toolBoxesOf (ev :: events) = toolBoxesOf [ev] ++ toolBoxesOf events := by
  cases h : ev.box? <;> simp [toolBoxesOf, h]

theorem boxes_deliver_progress (k a : Nat) (events : List StreamEvent) :
    ∀ (buf : String) (s : State) (e : MessageDiv), liveClosure k s = some ⟨a, buf⟩ →
      (∀ ev ∈ events, ev.isProgress = true) → s.elements[a]? = some e →
      ∃ e1, (deliver k events s).elements[a]? = some e1 ∧
        e1.boxes = e.boxes ++ toolBoxesOf events := by
  induction events with
  | nil => intro buf s e _ _ he; exact ⟨e, he, by simp [toolBoxesOf]⟩
  | cons ev events ih =>
    intro buf s e h hall he
    have hev := hall ev (List.mem_cons_self _ _)
    obtain ⟨e1, he1, hb1⟩ := boxes_onmessage_progress k a buf ev s e h hev he
    obtain ⟨e2, he2, hb2⟩ := ih _ _ e1 (liveClosure_onmessage_progress k a buf ev s h hev)
      (fun x hx => hall x (List.mem_cons_of_mem _ hx)) he1
    exact ⟨e2, he2, by rw [hb2, hb1, List.append_assoc, ← toolBoxesOf_cons]⟩

theorem toolCall_filter_toolBoxesOf (events : List StreamEvent) :
    ((toolBoxesOf events).filter Html.isToolCall).length =
      events.countP StreamEvent.isToolCall := by
  induction events with
  | nil => rfl
  | cons ev events ih =>
    rw [toolBoxesOf_cons, List.filter_append, List.length_append, ih, List.countP_cons]
    cases ev <;> simp [toolBoxesOf, StreamEvent.box?, Html.isToolCall, StreamEvent.isToolCall]
    omega

/-- A new-mode stream starts live on a new source, with an empty buffer and a
new attached element that holds no tool box. -/
theorem streamChatResponse_new (nodeId : String) (s : State) :
    streamChatResponse nodeId false s =
        .normal (streamChatResponse nodeId false s).state ∧
      liveClosure s.eventSources.length (streamChatResponse nodeId false s).state =
        some ⟨s.elements.length, ""⟩ ∧
      (∃ e, (streamChatResponse nodeId false s).state.elements[s.elements.length]? = some e ∧
        e.boxes = []) ∧
      (streamChatResponse nodeId false s).state.currentEventSource =
        some s.eventSources.length := by
  refine ⟨by simp [streamChatResponse, Completion.state], ?_, ?_, ?_⟩
  · simp [streamChatResponse, Completion.state, attachStreamHandlers, liveClosure]
  · simp [streamChatResponse, Completion.state, attachStreamHandlers]
  · simp [streamChatResponse, Completion.state, attachStreamHandlers, modifyElement]

theorem markdownBuffer_of_liveClosure (k : Nat) (c : StreamClosure) (s : State)
    (h : liveClosure k s = some c) : s.markdownBuffer k = some c.markdownBuffer := by
  unfold liveClosure at h
  unfold State.markdownBuffer
  cases hk : s.eventSources[k]? with
  | none => simp [hk] at h
  | some es =>
    rw [hk] at h
    simp only at h
    split at h
    · exact absurd h (by simp)
    · simp [h]

@[simp] theorem stopGeneration_isStreaming (s : State) :
    (stopGeneration s).isStreaming = false := by
  cases h : s.currentEventSource <;> simp [stopGeneration, h, setStatus]

@[simp] theorem stopGeneration_currentNodeId (s : State) :
    (stopGeneration s).currentNodeId = s.currentNodeId := by
  cases h : s.currentEventSource <;> simp [stopGeneration, h, setStatus]

@[simp] theorem stopGeneration_elements (s : State) :
    (stopGeneration s).elements =
      s.elements.map (fun e => if e.attached then e.removeIndicators else e) := by
  cases h : s.currentEventSource <;> simp [stopGeneration, h, setStatus]

@[simp] theorem stopGeneration_markdownBuffer (k : Nat) (s : State) :
    (stopGeneration s).markdownBuffer k = s.markdownBuffer k := by
  cases h : s.currentEventSource with
  | none => simp [stopGeneration, h, setStatus, State.markdownBuffer]
  | some i =>
    simp only [stopGeneration, h, setStatus, State.markdownBuffer, closeEventSource,
      List.getElem?_modify]
    cases s.eventSources[k]? with
    | none => rfl
    | some es => by_cases hik : i = k <;> simp [hik]

@[simp] theorem stopGeneration_toolBoxes (a : Nat) (s : State) :
    (stopGeneration s).toolBoxes a = s.toolBoxes a := by
  simp only [State.toolBoxes, stopGeneration_elements, List.getElem?_map]
  cases s.elements[a]? with
  | none => rfl
  | some e => by_cases h : e.attached <;> simp [h, MessageDiv.removeIndicators]

@[simp] theorem stopGeneration_contentBlocks (a : Nat) (s : State) :
    (stopGeneration s).contentBlocks a = s.contentBlocks a := by
  simp only [State.contentBlocks, stopGeneration_elements, List.getElem?_map]
  cases s.elements[a]? with
  | none => rfl
  | some e => by_cases h : e.attached <;> simp [h, MessageDiv.removeIndicators]

theorem toolBoxes_modifyElement (f : MessageDiv → MessageDiv) (a i : Nat) (s : State)
    (hf : ∀ e, (f e).boxes = e.boxes) :
    (modifyElement a f s).toolBoxes i = s.toolBoxes i := by
  simp only [State.toolBoxes, modifyElement_elements]
  rw [boxes_modify f a i s.elements hf]

theorem contentBlocks_modifyElement (f : MessageDiv → MessageDiv) (a i : Nat) (s : State)
    (hf : ∀ e, (f e).content.blocks = e.content.blocks) :
    (modifyElement a f s).contentBlocks i = s.contentBlocks i := by
  simp only [State.contentBlocks, modifyElement_elements, List.getElem?_modify]
  cases s.elements[i]? with
  | none => rfl
  | some e => by_cases h : a = i <;> simp [h, hf]

theorem ContentDiv.blocks_appendText (suffix : String) (c : ContentDiv) :
    (c.appendText suffix).blocks = c.blocks := by
  cases c <;> rfl

theorem deliver_singleton (k : Nat) (ev : StreamEvent) (s : State) :
    deliver k [ev] s = onmessage k ev s := rfl

/-- The `finished` event on a live stream. -/
theorem onmessage_finished (k a : Nat) (buf X : String) (s : State)
    (hlive : liveClosure k s = some ⟨a, buf⟩) :
    (onmessage k (.finished X) s).isStreaming = false ∧
    (onmessage k (.finished X) s).currentNodeId = X ∧
    (onmessage k (.finished X) s).markdownBuffer k = some buf ∧
    (∀ i, (onmessage k (.finished X) s).toolBoxes i = s.toolBoxes i) := by
  have hb := markdownBuffer_of_liveClosure k _ s hlive
  rw [onmessage, hlive]
  simp only [handleMessage]
  refine ⟨by simp, by simp, ?_, ?_⟩
  · rw [stopGeneration_markdownBuffer]
    exact hb
  · intro i
    rw [stopGeneration_toolBoxes]
    exact toolBoxes_modifyElement _ a i s (fun _ => rfl)

/-- C2: a new-mode stream that delivers progress events (status, timings,
content, reasoning_content, tool_call, tool_result) and then `finished{X}`
is left with `markdownBuffer` equal to the concatenation of the content fragments
in arrival order, with as many tool-call blocks in the assistant element as
there were `tool_call` events, with `isStreaming = false` and with
`currentNodeId = X`. -/
theorem C2_stream_fold_finished (s : State) (nodeId X : String) (events : List StreamEvent)
    (hprogress : ∀ ev ∈ events, ev.isProgress = true) :
    streamChatResponse nodeId false s =
      .normal (streamChatResponse nodeId false s).state ∧
    (deliver s.eventSources.length (events ++ [StreamEvent.finished X])
        (streamChatResponse nodeId false s).state).markdownBuffer s.eventSources.length =
      some (String.join (contentFragments events)) ∧
    ((deliver s.eventSources.length (events ++ [StreamEvent.finished X])
        (streamChatResponse nodeId false s).state).toolCallBlocks s.elements.length).length =
      events.countP StreamEvent.isToolCall ∧
    (deliver s.eventSources.length (events ++ [StreamEvent.finished X])
        (streamChatResponse nodeId false s).state).isStreaming = false ∧
    (deliver s.eventSources.length (events ++ [StreamEvent.finished X])
        (streamChatResponse nodeId false s).state).currentNodeId = X := by
  obtain ⟨hnormal, hlive, ⟨e, he, hboxes⟩, _⟩ := streamChatResponse_new nodeId s
  have hlive1 := liveClosure_deliver_progress _ _ events _ _ hlive hprogress
  obtain ⟨e1, he1, hb1⟩ := boxes_deliver_progress _ _ events _ _ e hlive hprogress he
  obtain ⟨h1, h2, h3, h4⟩ := onmessage_finished _ _ _ X _ hlive1
  rw [deliver_append, deliver_singleton]
  refine ⟨hnormal, h3, ?_, h1, h2⟩
  rw [State.toolCallBlocks, h4 s.elements.length, State.toolBoxes, he1]
  simp only [Option.map_some', Option.getD_some, hb1, hboxes, List.nil_append]
  exact toolCall_filter_toolBoxesOf events

/-- C2, on the scenario tool_call{search}, content{"Found it"}, finished{X}. -/
theorem C2_example_scenario :
    (∀ ev ∈ [StreamEvent.tool_call "search" "", StreamEvent.content "Found it"],
      ev.isProgress = true) ∧
    (streamChatResponse "X" false exampleState =
      .normal (streamChatResponse "X" false exampleState).state ∧
    (deliver exampleState.eventSources.length
        ([StreamEvent.tool_call "search" "", StreamEvent.content "Found it"] ++
          [StreamEvent.finished "X"])
        (streamChatResponse "X" false exampleState).state).markdownBuffer
          exampleState.eventSources.length =
      some (String.join (contentFragments
        [StreamEvent.tool_call "search" "", StreamEvent.content "Found it"])) ∧
    ((deliver exampleState.eventSources.length
        ([StreamEvent.tool_call "search" "", StreamEvent.content "Found it"] ++
          [StreamEvent.finished "X"])
        (streamChatResponse "X" false exampleState).state).toolCallBlocks
          exampleState.elements.length).length =
      [StreamEvent.tool_call "search" "", StreamEvent.content "Found it"].countP
        StreamEvent.isToolCall ∧
    (deliver exampleState.eventSources.length
        ([StreamEvent.tool_call "search" "", StreamEvent.content "Found it"] ++
          [StreamEvent.finished "X"])
        (streamChatResponse "X" false exampleState).state).isStreaming = false ∧
    (deliver exampleState.eventSources.length
        ([StreamEvent.tool_call "search" "", StreamEvent.content "Found it"] ++
          [StreamEvent.finished "X"])
        (streamChatResponse "X" false exampleState).state).currentNodeId = "X") :=
  ⟨by decide, C2_stream_fold_finished exampleState "X" "X"
    [StreamEvent.tool_call "search" "", StreamEvent.content "Found it"] (by decide)⟩

theorem contentFragments_map_content (xs : List String) :
    contentFragments (xs.map StreamEvent.content) = xs := by
  induction xs with
  | nil => rfl
  | cons x xs ih =>
    simp only [contentFragments, List.map_cons, List.filterMap_cons, StreamEvent.fragment?] at ih ⊢
    rw [ih]

theorem markdownBuffer_deliver_content (k : Nat) (c : StreamClosure) (xs : List String)
    (s : State) (hlive : liveClosure k s = some c) :
    (deliver k (xs.map StreamEvent.content) s).markdownBuffer k =
      some (c.markdownBuffer ++ String.join xs) := by
  have h := liveClosure_deliver_progress k c.assistantDiv (xs.map StreamEvent.content)
    c.markdownBuffer s hlive (by simp [StreamEvent.isProgress])
  rw [contentFragments_map_content] at h
  exact markdownBuffer_of_liveClosure k _ _ h

/-- C3: two lists of text fragments with the same concatenation, streamed as
`content` events from the same state, leave the same `markdownBuffer`; on a
live stream that buffer is the starting buffer followed by the
concatenation. -/
theorem C3_content_fold_concatenation (s : State) (k : Nat) (c : StreamClosure)
    (xs ys : List String) (hlive : liveClosure k s = some c)
    (hsame : String.join xs = String.join ys) :
    (deliver k (xs.map StreamEvent.content) s).markdownBuffer k =
        (deliver k (ys.map StreamEvent.content) s).markdownBuffer k ∧
    (deliver k (xs.map StreamEvent.content) s).markdownBuffer k =
        some (c.markdownBuffer ++ String.join xs) := by
  rw [markdownBuffer_deliver_content k c xs s hlive,
    markdownBuffer_deliver_content k c ys s hlive, hsame]
  exact ⟨rfl, rfl⟩

/-- C3, on the fragments "Hel", "lo", " World" against "Hello World". -/
theorem C3_example_hello_world :
    (liveClosure 0 exampleStreaming = some ⟨3, ""⟩ ∧
      String.join ["Hel", "lo", " World"] = String.join ["Hello World"]) ∧
    ((deliver 0 (["Hel", "lo", " World"].map StreamEvent.content) exampleStreaming).markdownBuffer 0 =
        (deliver 0 (["Hello World"].map StreamEvent.content) exampleStreaming).markdownBuffer 0 ∧
    (deliver 0 (["Hel", "lo", " World"].map StreamEvent.content) exampleStreaming).markdownBuffer 0 =
        some ((⟨3, ""⟩ : StreamClosure).markdownBuffer ++ String.join ["Hel", "lo", " World"])) :=
  ⟨⟨by decide, by decide⟩,
    C3_content_fold_concatenation exampleStreaming 0 ⟨3, ""⟩ ["Hel", "lo", " World"]
      ["Hello World"] (by decide) (by decide)⟩

/-- C4: on a live stream, an application `error` event and a channel-level
transport error each leave every `markdownBuffer`, the tool boxes and content
blocks of every element and `currentNodeId` unchanged, and end the stream with
`isStreaming = false`. -/
theorem C4_errors_preserve_content (s : State) (k : Nat) (c : StreamClosure) (message : String)
    (j i : Nat) (hlive : liveClosure k s = some c) :
    ((onmessage k (StreamEvent.error message) s).markdownBuffer j = s.markdownBuffer j ∧
      (onmessage k (StreamEvent.error message) s).toolBoxes i = s.toolBoxes i ∧
      (onmessage k (StreamEvent.error message) s).contentBlocks i = s.contentBlocks i ∧
      (onmessage k (StreamEvent.error message) s).currentNodeId = s.currentNodeId ∧
      (onmessage k (StreamEvent.error message) s).isStreaming = false) ∧
    ((onerror k s).markdownBuffer j = s.markdownBuffer j ∧
      (onerror k s).toolBoxes i = s.toolBoxes i ∧
      (onerror k s).contentBlocks i = s.contentBlocks i ∧
      (onerror k s).currentNodeId = s.currentNodeId ∧
      (onerror k s).isStreaming = false) := by
  rw [onmessage, onerror, hlive]
  simp only [handleMessage]
  refine ⟨⟨?_, ?_, ?_, ?_, ?_⟩, ⟨?_, ?_, ?_, ?_, ?_⟩⟩
  · rw [stopGeneration_markdownBuffer]; rfl
  · rw [stopGeneration_toolBoxes]
    exact toolBoxes_modifyElement _ _ i s (fun _ => rfl)
  · rw [stopGeneration_contentBlocks]
    exact contentBlocks_modifyElement _ _ i s (fun e => ContentDiv.blocks_appendText _ _)
  · rw [stopGeneration_currentNodeId]; rfl
  · exact stopGeneration_isStreaming _
  · rw [stopGeneration_markdownBuffer]; rfl
  · rw [stopGeneration_toolBoxes]
    exact toolBoxes_modifyElement _ _ i s (fun _ => rfl)
  · rw [stopGeneration_contentBlocks]
    exact contentBlocks_modifyElement _ _ i s (fun _ => rfl)
  · rw [stopGeneration_currentNodeId]; rfl
  · exact stopGeneration_isStreaming _

/-- C4, on the scenario content{"partial"} followed by a transport error: the
accumulated content is still "partial". -/
theorem C4_example_partial :
    liveClosure 0 examplePartial = some ⟨3, "partial"⟩ ∧
    (onerror 0 examplePartial).markdownBuffer 0 = some "partial" ∧
    (onerror 0 examplePartial).contentBlocks 3 = [Html.markdown "partial"] ∧
    (onerror 0 examplePartial).isStreaming = false ∧
    (onmessage 0 (StreamEvent.error "boom") examplePartial).markdownBuffer 0 = some "partial" :=
  ⟨by decide,
    (C4_errors_preserve_content examplePartial 0 ⟨3, "partial"⟩ "boom" 0 3 (by decide)).2.1.trans
      (by decide),
    by decide,
    (C4_errors_preserve_content examplePartial 0 ⟨3, "partial"⟩ "boom" 0 3 (by decide)).2.2.2.2.2,
    (C4_errors_preserve_content examplePartial 0 ⟨3, "partial"⟩ "boom" 0 3 (by decide)).1.1.trans
      (by decide)⟩

/-! ## User actions -/

/-- C5: while a stream is active, `sendMessage` and `continueMessage` return
the state they were called in: no request is logged, no stream is opened and
no variable changes; `sendMessage` does the same when the input is blank after
trimming. -/
theorem C5_busy_or_blank_is_noop (s : State) (response : Option SendResult)
    (loadChatList : State → State) (nodeId : String) (continued : Option ContinueResult) :
    (s.isStreaming = true →
      sendMessage response loadChatList s = s ∧ continueMessage nodeId continued s = s) ∧
    (jsTrim s.messageInput = "" → sendMessage response loadChatList s = s) := by
  constructor
  · intro h
    simp [sendMessage, continueMessage, h]
  · intro h
    simp [sendMessage, h]

/-- C5, on a page with a running stream and a message typed, and on an idle
page with a blank input. -/
theorem C5_example_busy_and_blank :
    (exampleBusy.isStreaming = true ∧ jsTrim exampleBusy.messageInput = "again" ∧
      exampleBlank.isStreaming = false ∧ jsTrim exampleBlank.messageInput = "") ∧
    (sendMessage (some ⟨true, "N", "", ""⟩) id exampleBusy = exampleBusy ∧
      continueMessage "B" (some ⟨true, ""⟩) exampleBusy = exampleBusy) ∧
    sendMessage (some ⟨true, "N", "", ""⟩) id exampleBlank = exampleBlank :=
  ⟨⟨by decide, by decide, by decide, by decide⟩,
    (C5_busy_or_blank_is_noop exampleBusy (some ⟨true, "N", "", ""⟩) id "B"
      (some ⟨true, ""⟩)).1 (by decide),
    (C5_busy_or_blank_is_noop exampleBlank (some ⟨true, "N", "", ""⟩) id "B"
      (some ⟨true, ""⟩)).2 (by decide)⟩

/-- C6: `saveEdit` called while a stream is active still posts the edit,
refetches the tree, moves `currentNodeId` and opens a second `EventSource`
beside the one that is still open. -/
theorem C6_saveEdit_while_streaming :
    exampleEditing.isStreaming = true ∧
    exampleEditing.currentEventSource = some 0 ∧
    exampleEditing.requests = [Request.send "c1" "next" ["f1"]] ∧
    (saveEdit (some exampleEditResult) (some exampleEditedTree) exampleEditing).requests =
      [Request.send "c1" "next" ["f1"], Request.edit "c1" "A" "hi there", Request.tree "c1"] ∧
    (saveEdit (some exampleEditResult) (some exampleEditedTree) exampleEditing).currentNodeId =
      "A2" ∧
    ((saveEdit (some exampleEditResult) (some exampleEditedTree) exampleEditing).eventSources.map
      (fun es => (es.url, es.closed))) =
      [("/api/chats/c1/stream/U", false), ("/api/chats/c1/stream/A2", false)] ∧
    (saveEdit (some exampleEditResult) (some exampleEditedTree) exampleEditing).currentEventSource =
      some 1 := by
  decide

@[simp] theorem stopGeneration_currentFiles (s : State) :
    (stopGeneration s).currentFiles = s.currentFiles := by
  cases h : s.currentEventSource <;> simp [stopGeneration, h, setStatus]

@[simp] theorem stopGeneration_messageInput (s : State) :
    (stopGeneration s).messageInput = s.messageInput := by
  cases h : s.currentEventSource <;> simp [stopGeneration, h, setStatus]

@[simp] theorem stopGeneration_requests (s : State) :
    (stopGeneration s).requests = s.requests := by
  cases h : s.currentEventSource <;> simp [stopGeneration, h, setStatus]

@[simp] theorem stopGeneration_currentFilesDisplay (s : State) :
    (stopGeneration s).currentFilesDisplay = s.currentFilesDisplay := by
  cases h : s.currentEventSource <;> simp [stopGeneration, h, setStatus]

@[simp] theorem stopGeneration_currentEventSource (s : State) :
    (stopGeneration s).currentEventSource = none := by
  cases h : s.currentEventSource <;> simp [stopGeneration, h, setStatus]

/-- The state left by `sendMessage` when the send request fails. -/
theorem sendMessage_failed (s : State) (response : Option SendResult)
    (loadChatList : State → State) (hmessage : jsTrim s.messageInput ≠ "")
    (hidle : s.isStreaming = false) (hfailed : ∀ r, response = some r → r.success = false) :
    sendMessage response loadChatList s =
      stopGeneration (setStatus "Error sending message"
        { s with isStreaming := true, autoScrollEnabled := true, userHasScrolled := false,
                 sendBtnDisplay := "none", stopBtnDisplay := "block",
                 statusBar := "Sending message...",
                 requests := s.requests ++
                   [Request.send s.currentChatId (jsTrim s.messageInput) s.currentFiles] }) := by
  cases response with
  | none => simp [sendMessage, hmessage, hidle, setStatus]
  | some r => simp [sendMessage, hmessage, hidle, setStatus, hfailed r rfl]

/-- C7: with a non-blank message and no active stream, a failed send request
(the call threw, or the answer has `success = false`) leaves the pending
attachments, the input text and `currentNodeId` as they were, adds no message
element, and ends with `isStreaming = false`; the one request it issued is the
send request. -/
theorem C7_failed_send_keeps_state (s : State) (response : Option SendResult)
    (loadChatList : State → State) (hmessage : jsTrim s.messageInput ≠ "")
    (hidle : s.isStreaming = false) (hfailed : ∀ r, response = some r → r.success = false) :
    (sendMessage response loadChatList s).currentFiles = s.currentFiles ∧
    (sendMessage response loadChatList s).currentFilesDisplay = s.currentFilesDisplay ∧
    (sendMessage response loadChatList s).messageInput = s.messageInput ∧
    (sendMessage response loadChatList s).currentNodeId = s.currentNodeId ∧
    (sendMessage response loadChatList s).isStreaming = false ∧
    (sendMessage response loadChatList s).elements.length = s.elements.length ∧
    (sendMessage response loadChatList s).requests =
      s.requests ++ [Request.send s.currentChatId (jsTrim s.messageInput) s.currentFiles] := by
  rw [sendMessage_failed s response loadChatList hmessage hidle hfailed]
  simp [setStatus]

/-- C7, on a page with the message "next" and the pending attachment `f1`,
when the backend answers `success = false`. -/
theorem C7_example_failed_send :
    (jsTrim exampleRendered.messageInput ≠ "" ∧ exampleRendered.isStreaming = false) ∧
    (sendMessage (some ⟨false, "", "", "busy"⟩) id exampleRendered).currentFiles = ["f1"] ∧
    (sendMessage (some ⟨false, "", "", "busy"⟩) id exampleRendered).messageInput = "next" ∧
    (sendMessage (some ⟨false, "", "", "busy"⟩) id exampleRendered).currentNodeId = "B" ∧
    (sendMessage (some ⟨false, "", "", "busy"⟩) id exampleRendered).isStreaming = false :=
  have h := C7_failed_send_keeps_state exampleRendered (some ⟨false, "", "", "busy"⟩) id
    (by decide) (by decide) (by intro r hr; cases hr; rfl)
  ⟨⟨by decide, by decide⟩, h.1, h.2.2.1, h.2.2.2.1, h.2.2.2.2.1⟩

/-- Without the target below them, the children yield no next node. -/
theorem renderNextChild_absent (t : String) (cs cp : List Node) (s : State)
    (hs : s.currentNodeId = t) (h : t ∉ Node.idsList cs) :
    renderNextChild cs cp s = (s, []) := by
  induction cs with
  | nil => rfl
  | cons c cs ih =>
    rw [Node.idsList, List.mem_append, not_or] at h
    have hid : ¬ c.id = t := fun e => h.1 (e ▸ Node.id_mem_ids c)
    have hon : ¬ isOnPathToCurrent c t = true := fun e => h.1 ((isOnPathToCurrent_iff t c).mp e)
    rw [renderNextChild_cons, hs, if_neg (by simp [hid, hon])]
    exact ih h.2

/-- C8 (as the code has it): when `currentNodeId` is the id of no node of the
tree, `renderChatHistory(root)` raises nothing and returns after emptying the
chat container: it resolves the empty path, renders no message, and leaves
every variable, the status bar and the request log as they were. -/
theorem C8_absent_target_renders_nothing (root : Node) (s : State)
    (habsent : s.currentNodeId ∉ root.ids) :
    renderChatHistory root [] s = (clearChatContainer s, []) := by
  have hon : ¬ isOnPathToCurrent root s.currentNodeId = true :=
    fun e => habsent ((isOnPathToCurrent_iff _ root).mp e)
  rw [renderChatHistory_eq, if_neg hon]
  simp

/-- C8, on `exampleRoot` with `currentNodeId = "Z"`. -/
theorem C8_example_absent_target :
    exampleDesync.currentNodeId ∉ exampleRoot.ids ∧
    renderChatHistory exampleRoot [] exampleDesync = (clearChatContainer exampleDesync, []) :=
  ⟨by decide, C8_absent_target_renders_nothing exampleRoot exampleDesync (by decide)⟩

/-- C8 as stated fails: with `currentNodeId = "Z"`, the id of no node of
`exampleRoot`, the call completes with the empty path as its result, and
neither a status message nor a tree request follows. -/
theorem C8_counterexample_no_error :
    "Z" ∉ exampleRoot.ids ∧
    exampleDesync.currentNodeId = "Z" ∧
    (renderChatHistory exampleRoot [] exampleDesync).2 = [] ∧
    (renderChatHistory exampleRoot [] exampleDesync).1.statusBar = exampleDesync.statusBar ∧
    (renderChatHistory exampleRoot [] exampleDesync).1.requests = exampleDesync.requests ∧
    (switchToChat "c1" (some ⟨"Z", "chat", exampleRoot⟩) exampleState).requests =
      [Request.tree "c1"] ∧
    (switchToChat "c1" (some ⟨"Z", "chat", exampleRoot⟩) exampleState).currentNodeId = "Z" :=
  ⟨by decide, rfl, rfl, rfl, rfl, rfl, rfl⟩

theorem MessageDiv.removeIndicators_idem (e : MessageDiv) :
    e.removeIndicators.removeIndicators = e.removeIndicators := by
  simp [MessageDiv.removeIndicators, List.filter_filter]

/-- C10: `stopGeneration` is idempotent: a second call in succession changes
nothing.  One call clears `currentEventSource` after closing that source,
sets `isStreaming = false`, resets the auto-scroll flags, and leaves
`currentNodeId` and every `markdownBuffer` untouched. -/
theorem C10_stopGeneration_idempotent (s : State) (k : Nat) :
    stopGeneration (stopGeneration s) = stopGeneration s ∧
    (stopGeneration s).currentEventSource = none ∧
    (stopGeneration s).eventSources =
      (match s.currentEventSource with
       | some i => closeEventSource i s.eventSources
       | none => s.eventSources) ∧
    (stopGeneration s).isStreaming = false ∧
    (stopGeneration s).autoScrollEnabled = true ∧
    (stopGeneration s).userHasScrolled = false ∧
    (stopGeneration s).currentNodeId = s.currentNodeId ∧
    (stopGeneration s).markdownBuffer k = s.markdownBuffer k := by
  refine ⟨?_, by simp, ?_, by simp, ?_, ?_, by simp, by simp⟩
  · have hg : ∀ e : MessageDiv,
        (if (if e.attached then e.removeIndicators else e).attached
          then (if e.attached then e.removeIndicators else e).removeIndicators
          else (if e.attached then e.removeIndicators else e)) =
        (if e.attached then e.removeIndicators else e) := by
      intro e
      by_cases h : e.attached = true
      · simp [h, MessageDiv.removeIndicators_idem, MessageDiv.removeIndicators]
      · simp [h]
    cases h : s.currentEventSource <;>
      simp [stopGeneration, h, setStatus, Function.comp_def, hg]
  · cases h : s.currentEventSource <;> simp [stopGeneration, h, setStatus]
  · cases h : s.currentEventSource <;> simp [stopGeneration, h, setStatus]
  · cases h : s.currentEventSource <;> simp [stopGeneration, h, setStatus]

/-! ## Pending attachments -/

/-- C11: `addFileToMessage` is idempotent and creates no duplicate: adding a
file id a second time changes nothing (state and display included), a list of
pending files without duplicates stays without duplicates, and from the empty
list adding the same id twice leaves a list of size 1. -/
theorem C11_addFileToMessage_idempotent (s : State) (fileUuid : String) :
    addFileToMessage fileUuid (addFileToMessage fileUuid s) = addFileToMessage fileUuid s ∧
    (s.currentFiles.Nodup → (addFileToMessage fileUuid s).currentFiles.Nodup) ∧
    (s.currentFiles = [] →
      (addFileToMessage fileUuid (addFileToMessage fileUuid s)).currentFiles = [fileUuid] ∧
      (addFileToMessage fileUuid (addFileToMessage fileUuid s)).currentFiles.length = 1) := by
  by_cases h : fileUuid ∈ s.currentFiles
  · refine ⟨by simp [addFileToMessage, h], ?_, ?_⟩
    · intro hn; simpa [addFileToMessage, h] using hn
    · intro he; rw [he] at h; simp at h
  · refine ⟨by simp [addFileToMessage, h, updateCurrentFilesDisplay], ?_, ?_⟩
    · intro hn
      have hadd : (addFileToMessage fileUuid s).currentFiles = s.currentFiles ++ [fileUuid] := by
        simp [addFileToMessage, h, updateCurrentFilesDisplay]
      rw [hadd]
      exact List.Nodup.append hn (List.nodup_singleton _) (by simpa using h)
    · intro he
      simp [addFileToMessage, he, updateCurrentFilesDisplay]

/-- C11, on the loaded example page: `f1` is pending already and `f2` is
new. -/
theorem C11_example_add_twice :
    (exampleRendered.currentFiles.Nodup ∧ exampleState.currentFiles = []) ∧
    (addFileToMessage "f2" (addFileToMessage "f2" exampleRendered)).currentFiles = ["f1", "f2"] ∧
    (addFileToMessage "f1" exampleRendered).currentFiles = ["f1"] ∧
    (addFileToMessage "f2" exampleRendered).currentFiles.Nodup ∧
    ((addFileToMessage "f2" (addFileToMessage "f2" exampleState)).currentFiles = ["f2"] ∧
      (addFileToMessage "f2" (addFileToMessage "f2" exampleState)).currentFiles.length = 1) :=
  ⟨⟨by decide, by decide⟩,
    (congrArg State.currentFiles
      (C11_addFileToMessage_idempotent exampleRendered "f2").1).trans (by decide),
    by decide,
    (C11_addFileToMessage_idempotent exampleRendered "f2").2.1 (by decide),
    (C11_addFileToMessage_idempotent exampleState "f2").2.2 (by decide)⟩

/-! ## Tie-break of path resolution -/

/-- The predicate handed to `node.children.find` holds of a child exactly when
the target is among the ids of the subtree of the child. -/
theorem nextChild_predicate (t : String) (c : Node) :
    (isOnPathToCurrent c t || decide (c.id = t)) = decide (t ∈ c.ids) := by
  by_cases h : t ∈ c.ids
  · simp [h, (isOnPathToCurrent_iff t c).mpr h]
  · have h1 : isOnPathToCurrent c t = false :=
      Bool.eq_false_iff.mpr (fun e => h ((isOnPathToCurrent_iff t c).mp e))
    have h2 : ¬ c.id = t := fun e => h (e ▸ Node.id_mem_ids c)
    simp [h, h1, h2]

/-- The helper `renderNextChild` is `find` followed by the recursive call. -/
theorem renderNextChild_eq_find (cs cp : List Node) (s : State) :
    renderNextChild cs cp s =
      match cs.find? (fun child =>
        isOnPathToCurrent child s.currentNodeId || decide (child.id = s.currentNodeId)) with
      | some nextChild => renderChatHistory nextChild cp s
      | none => (s, []) := by
  induction cs with
  | nil => rfl
  | cons c cs ih =>
    rw [renderNextChild_cons, List.find?_cons]
    by_cases h : (isOnPathToCurrent c s.currentNodeId || decide (c.id = s.currentNodeId)) = true
    · simp [h]
    · rw [if_neg h, ih]
      simp only [Bool.not_eq_true] at h
      rw [h]

/-- A node whose subtree contains the target heads the path resolved from
it. -/
theorem head_renderChatHistory (n : Node) (path : List Node) (s : State)
    (h : s.currentNodeId ∈ n.ids) :
    ∃ rest, (renderChatHistory n path s).2 = n :: rest := by
  rw [renderChatHistory_eq, if_pos ((isOnPathToCurrent_iff _ n).mpr h)]
  exact ⟨_, rfl⟩

/-- The properties of the tie-break on a resolved path `p` for the target `t`:
each node is followed by the first child of it whose subtree contains `t`, and
the path stops only at a node none of whose children contains `t`. -/
theorem tieBreak_step (t : String) (n : Node) (path : List Node) (s : State)
    (hs : s.currentNodeId = t)
    (ih : ∀ (cp : List Node) (s : State), s.currentNodeId = t →
      ((renderNextChild n.children cp s).2).head? =
          n.children.find? (fun c => decide (t ∈ c.ids)) ∧
        List.Chain' (fun parent child =>
          parent.children.find? (fun c => decide (t ∈ c.ids)) = some child)
          (renderNextChild n.children cp s).2 ∧
        (∀ last, ((renderNextChild n.children cp s).2).getLast? = some last →
          last.children.find? (fun c => decide (t ∈ c.ids)) = none)) :
    List.Chain' (fun parent child =>
        parent.children.find? (fun c => decide (t ∈ c.ids)) = some child)
        (renderChatHistory n path s).2 ∧
      (∀ last, ((renderChatHistory n path s).2).getLast? = some last →
        last.children.find? (fun c => decide (t ∈ c.ids)) = none) := by
  rw [renderChatHistory_eq]
  by_cases hon : isOnPathToCurrent n s.currentNodeId = true
  · rw [if_pos hon]
    generalize hs2 : (if n.role ≠ "system" then
        addMessageToUI n (if path.length = 0 then clearChatContainer s else s)
      else (if path.length = 0 then clearChatContainer s else s)) = s2
    have hs2t : s2.currentNodeId = t := by
      rw [← hs2, ← hs]; split_ifs <;> rfl
    obtain ⟨hhead, hchain, hlast⟩ := ih (path ++ [n]) s2 hs2t
    generalize (renderNextChild n.children (path ++ [n]) s2).2 = rest at hhead hchain hlast
    constructor
    · rw [List.chain'_cons']
      refine ⟨fun y hy => ?_, hchain⟩
      rw [← hhead]
      exact hy
    · intro last hl
      cases rest with
      | nil =>
        simp only [List.getLast?_singleton, Option.some.injEq] at hl
        subst hl
        simpa using hhead.symm
      | cons r rest =>
        rw [List.getLast?_cons_cons] at hl
        exact hlast last hl
  · rw [if_neg hon]
    exact ⟨List.chain'_nil, fun last hl => by simp at hl⟩

mutual
theorem renderChatHistory_tieBreak (t : String) :
    ∀ (n : Node) (path : List Node) (s : State), s.currentNodeId = t →
      List.Chain' (fun parent child =>
          parent.children.find? (fun c => decide (t ∈ c.ids)) = some child)
          (renderChatHistory n path s).2 ∧
        (∀ last, ((renderChatHistory n path s).2).getLast? = some last →
          last.children.find? (fun c => decide (t ∈ c.ids)) = none)
  | .mk _ _ _ _ _ _ children, path, s, hs =>
    tieBreak_step t _ path s hs (renderNextChild_tieBreak t children)
theorem renderNextChild_tieBreak (t : String) :
    ∀ (cs : List Node) (cp : List Node) (s : State), s.currentNodeId = t →
      ((renderNextChild cs cp s).2).head? = cs.find? (fun c => decide (t ∈ c.ids)) ∧
        List.Chain' (fun parent child =>
          parent.children.find? (fun c => decide (t ∈ c.ids)) = some child)
          (renderNextChild cs cp s).2 ∧
        (∀ last, ((renderNextChild cs cp s).2).getLast? = some last →
          last.children.find? (fun c => decide (t ∈ c.ids)) = none)
  | [], _, _, _ => by simp [renderNextChild]
  | c :: cs, cp, s, hs => by
    have ihc := renderChatHistory_tieBreak t c cp s hs
    have ihcs := renderNextChild_tieBreak t cs cp s hs
    rw [renderNextChild_cons, hs, nextChild_predicate, List.find?_cons]
    by_cases hc : t ∈ c.ids
    · simp only [hc, decide_True, if_true]
      obtain ⟨rest, hrest⟩ := head_renderChatHistory c cp s (hs ▸ hc)
      exact ⟨by rw [hrest]; rfl, ihc.1, ihc.2⟩
    · simp only [hc, decide_False, Bool.false_eq_true, if_false]
      exact ihcs
end

theorem findMessageByNodeId_getElem (nodeId : String) (s : State) (a : Nat)
    (h : findMessageByNodeId nodeId s = some a) : ∃ e, s.elements[a]? = some e := by
  have h1 := List.findIdx?_of_eq_some h
  cases he : s.elements[a]? with
  | none => simp [he] at h1
  | some e => exact ⟨e, rfl⟩

/-- A continuation stream starts live on a new source, attached to the
element found for `nodeId`, with an empty buffer; the content of the element
is untouched. -/
theorem streamChatResponse_continuation (nodeId : String) (s : State) (a : Nat)
    (e0 : MessageDiv) (hfound : findMessageByNodeId nodeId s = some a)
    (he0 : s.elements[a]? = some e0) :
    streamChatResponse nodeId true s =
        .normal (streamChatResponse nodeId true s).state ∧
      liveClosure s.eventSources.length (streamChatResponse nodeId true s).state =
        some ⟨a, ""⟩ ∧
      (∃ e, (streamChatResponse nodeId true s).state.elements[a]? = some e ∧
        e.content = e0.content ∧ e.rawContent = e0.rawContent) := by
  have hf : findMessageByNodeId nodeId
      { s with
        eventSources := s.eventSources ++
          [⟨"/api/chats/" ++ s.currentChatId ++ "/stream/" ++ nodeId, false, none⟩]
        currentEventSource := some s.eventSources.length } = some a := hfound
  refine ⟨?_, ?_, ?_⟩
  · simp only [streamChatResponse, if_true, hf, Completion.state]
  · simp only [streamChatResponse, if_true, hf, Completion.state]
    simp [attachStreamHandlers, liveClosure, modifyElement]
  · simp only [streamChatResponse, if_true, hf, Completion.state]
    simp [attachStreamHandlers, modifyElement, List.getElem?_modify_eq, he0]

/-- A `content` event shows the rendering of the new buffer in place of what
the element showed, and keeps its `rawContent`. -/
theorem content_onmessage_content (k a : Nat) (buf f : String) (s : State) (e : MessageDiv)
    (hlive : liveClosure k s = some ⟨a, buf⟩) (he : s.elements[a]? = some e) :
    ∃ e1, (onmessage k (StreamEvent.content f) s).elements[a]? = some e1 ∧
      e1.content = .html [Html.markdown (buf ++ f)] ∧ e1.rawContent = e.rawContent := by
  rw [onmessage, hlive]
  simp [handleMessage, List.getElem?_modify_eq, he]

theorem content_deliver_content (k a : Nat) (fs : List String) :
    ∀ (buf : String) (s : State) (e : MessageDiv), liveClosure k s = some ⟨a, buf⟩ →
      s.elements[a]? = some e →
      ∃ e1, (deliver k (fs.map StreamEvent.content) s).elements[a]? = some e1 ∧
        e1.content = (if fs = [] then e.content
          else .html [Html.markdown (buf ++ String.join fs)]) ∧
        e1.rawContent = e.rawContent := by
  induction fs with
  | nil => intro buf s e _ he; exact ⟨e, he, by simp, rfl⟩
  | cons f fs ih =>
    intro buf s e hlive he
    rw [List.map_cons, deliver_cons]
    obtain ⟨e1, he1, hc1, hr1⟩ := content_onmessage_content k a buf f s e hlive he
    have hlive1 := liveClosure_onmessage_progress k a buf (StreamEvent.content f) s hlive rfl
    have hj : String.join (contentFragments [StreamEvent.content f]) = f := by
      simp [contentFragments, StreamEvent.fragment?, join_cons, join_nil]
    rw [hj] at hlive1
    obtain ⟨e2, he2, hc2, hr2⟩ := ih (buf ++ f) _ e1 hlive1 he1
    refine ⟨e2, he2, ?_, hr2.trans hr1⟩
    rw [hc2, hc1]
    by_cases hfs : fs = []
    · subst hfs; simp [join_cons, join_nil]
    · simp [hfs, join_cons, String.append_assoc]

/-- The `finished` event snapshots the buffer into `rawContent`, attaches the
node id and leaves the displayed content as it is. -/
theorem element_onmessage_finished (k a : Nat) (buf X : String) (s : State) (e : MessageDiv)
    (hlive : liveClosure k s = some ⟨a, buf⟩) (he : s.elements[a]? = some e) :
    ∃ e1, (onmessage k (StreamEvent.finished X) s).elements[a]? = some e1 ∧
      e1.content = e.content ∧ e1.rawContent = some buf ∧ e1.nodeId = some X := by
  rw [onmessage, hlive]
  simp only [handleMessage, stopGeneration_elements, modifyElement_elements, List.getElem?_map,
    List.getElem?_modify_eq, he, Option.map_some']
  by_cases hatt : e.attached = true <;>
    simp [hatt, MessageDiv.removeFirstIndicator, MessageDiv.removeIndicators]

/-- C13 (as the code has it): a continuation stream starts from an empty
`markdownBuffer`, like a new stream.  After content events with fragments
`f1..fn` followed by `finished{X}`, the buffer and the `rawContent` snapshot
of the element are `f1..fn` in order, without the content the element had
before; the displayed content is the rendering of `f1..fn` when there was a
fragment, and is left as it was when there was none. -/
theorem C13_continuation_restarts_buffer (s : State) (nodeId X : String) (a : Nat)
    (fs : List String) (hfound : findMessageByNodeId nodeId s = some a) :
    streamChatResponse nodeId true s =
      .normal (streamChatResponse nodeId true s).state ∧
    (deliver s.eventSources.length (fs.map StreamEvent.content ++ [StreamEvent.finished X])
        (streamChatResponse nodeId true s).state).markdownBuffer s.eventSources.length =
      some (String.join fs) ∧
    (∃ e0 e, s.elements[a]? = some e0 ∧
      (deliver s.eventSources.length
          (fs.map StreamEvent.content ++ [StreamEvent.finished X])
          (streamChatResponse nodeId true s).state).elements[a]? = some e ∧
      e.rawContent = some (String.join fs) ∧
      e.nodeId = some X ∧
      e.content = (if fs = [] then e0.content else .html [Html.markdown (String.join fs)])) := by
  obtain ⟨e0, he0⟩ := findMessageByNodeId_getElem nodeId s a hfound
  obtain ⟨hnormal, hlive, e1, he1, hc1, _⟩ := streamChatResponse_continuation nodeId s a e0 hfound he0
  have hprog : ∀ ev ∈ fs.map StreamEvent.content, ev.isProgress = true := by
    simp [StreamEvent.isProgress]
  have hlive1 := liveClosure_deliver_progress _ _ (fs.map StreamEvent.content) _ _ hlive hprog
  rw [contentFragments_map_content, String.empty_append] at hlive1
  obtain ⟨e2, he2, hc2, _⟩ := content_deliver_content _ a fs "" _ e1 hlive he1
  obtain ⟨e3, he3, hc3, hr3, hn3⟩ := element_onmessage_finished _ a _ X _ e2 hlive1 he2
  obtain ⟨_, _, hb, _⟩ := onmessage_finished _ _ _ X _ hlive1
  rw [deliver_append, deliver_singleton]
  refine ⟨hnormal, hb, e0, e3, he0, he3, hr3, hn3, ?_⟩
  rw [hc3, hc2, hc1, String.empty_append]

/-- C13, on the continuation of `B`, which shows "hello": after the fragments
" wor", "ld" and `finished{B}` the buffer of the stream is " world". -/
theorem C13_example_continuation :
    (findMessageByNodeId "B" exampleRendered = some 1 ∧
      (exampleRendered.elements[1]?).map (fun e => e.rawContent) = some (some "hello")) ∧
    ((deliver 0 ([" wor", "ld"].map StreamEvent.content ++ [StreamEvent.finished "B"])
        (streamChatResponse "B" true exampleRendered).state).markdownBuffer 0 =
      some " world") :=
  ⟨⟨by decide, by decide⟩,
    (C13_continuation_restarts_buffer exampleRendered "B" "B" 1 [" wor", "ld"]
      (by decide)).2.1.trans (by decide)⟩

/-- C13 as stated fails: the element of `B` shows "hello" with raw content
"hello"; after a continuation stream with the fragments " wor", "ld" and
`finished{B}` it shows " world" and its raw content is " world", not
"hello world". -/
theorem C13_counterexample_content_replaced :
    exampleRendered.currentNodeId = "B" ∧
    (exampleRendered.elements[1]?).map (fun e => (e.nodeId, e.rawContent, e.content)) =
      some (some "B", some "hello", .html [Html.markdown "hello"]) ∧
    liveClosure 0 exampleContinuing = some ⟨1, ""⟩ ∧
    ((deliver 0 [StreamEvent.content " wor", StreamEvent.content "ld", StreamEvent.finished "B"]
        exampleContinuing).elements[1]?).map (fun e => (e.nodeId, e.rawContent, e.content)) =
      some (some "B", some " world", .html [Html.markdown " world"]) ∧
    "hello" ++ String.join [" wor", "ld"] = "hello world" := by
  decide

/-! ## Auto-scroll flags -/

@[simp] theorem stopGeneration_autoScrollEnabled (s : State) :
    (stopGeneration s).autoScrollEnabled = true := by
  cases h : s.currentEventSource <;> simp [stopGeneration, h, setStatus]

@[simp] theorem stopGeneration_userHasScrolled (s : State) :
    (stopGeneration s).userHasScrolled = false := by
  cases h : s.currentEventSource <;> simp [stopGeneration, h, setStatus]

theorem FlagsKeptOrReset.of_eq {s t : State} (h1 : t.autoScrollEnabled = s.autoScrollEnabled)
    (h2 : t.userHasScrolled = s.userHasScrolled) : FlagsKeptOrReset s t :=
  Or.inl ⟨h1, h2⟩

theorem FlagsKeptOrReset.stop (s t : State) : FlagsKeptOrReset s (stopGeneration t) :=
  Or.inr ⟨stopGeneration_autoScrollEnabled t, stopGeneration_userHasScrolled t⟩

theorem scrollToBottom_flags (s : State) :
    (scrollToBottom s).autoScrollEnabled = s.autoScrollEnabled ∧
      (scrollToBottom s).userHasScrolled = s.userHasScrolled := by
  unfold scrollToBottom; split <;> exact ⟨rfl, rfl⟩

theorem streamChatResponse_flags (nodeId : String) (isContinuation : Bool) (s : State) :
    (streamChatResponse nodeId isContinuation s).state.autoScrollEnabled = s.autoScrollEnabled ∧
      (streamChatResponse nodeId isContinuation s).state.userHasScrolled =
        s.userHasScrolled := by
  unfold streamChatResponse
  cases isContinuation with
  | false =>
    simp only [Bool.false_eq_true, if_false, Completion.state, attachStreamHandlers, modifyElement]
    exact scrollToBottom_flags _
  | true =>
    simp only [if_true]
    split <;> exact ⟨rfl, rfl⟩

theorem renderChatHistory_flags_step (n : Node) (path : List Node) (s : State)
    (ih : ∀ (cp : List Node) (s : State),
      (renderNextChild n.children cp s).1.autoScrollEnabled = s.autoScrollEnabled ∧
        (renderNextChild n.children cp s).1.userHasScrolled = s.userHasScrolled) :
    (renderChatHistory n path s).1.autoScrollEnabled = s.autoScrollEnabled ∧
      (renderChatHistory n path s).1.userHasScrolled = s.userHasScrolled := by
  rw [renderChatHistory_eq]
  split_ifs <;> first | exact ⟨rfl, rfl⟩ | exact ih _ _

mutual
theorem renderChatHistory_flags :
    ∀ (n : Node) (path : List Node) (s : State),
      (renderChatHistory n path s).1.autoScrollEnabled = s.autoScrollEnabled ∧
        (renderChatHistory n path s).1.userHasScrolled = s.userHasScrolled
  | .mk _ _ _ _ _ _ children, path, s =>
    renderChatHistory_flags_step _ path s (renderNextChild_flags children)
theorem renderNextChild_flags :
    ∀ (cs : List Node) (cp : List Node) (s : State),
      (renderNextChild cs cp s).1.autoScrollEnabled = s.autoScrollEnabled ∧
        (renderNextChild cs cp s).1.userHasScrolled = s.userHasScrolled
  | [], _, _ => by simp [renderNextChild]
  | c :: cs, cp, s => by
    rw [renderNextChild]
    split
    · exact renderChatHistory_flags c cp s
    · exact renderNextChild_flags cs cp s
end

theorem switchToChat_flags (chatId : String) (data : Option TreeData) (s : State) :
    (switchToChat chatId data s).autoScrollEnabled = s.autoScrollEnabled ∧
      (switchToChat chatId data s).userHasScrolled = s.userHasScrolled := by
  cases data with
  | none => exact ⟨rfl, rfl⟩
  | some d =>
    simp only [switchToChat]
    exact renderChatHistory_flags _ _ _



theorem streamChatResponse_flags_of_eq {nodeId : String} {isContinuation : Bool}
    {t : State} {c : Completion} (h : streamChatResponse nodeId isContinuation t = c) :
    c.state.autoScrollEnabled = t.autoScrollEnabled ∧
      c.state.userHasScrolled = t.userHasScrolled :=
  h ▸ streamChatResponse_flags nodeId isContinuation t

theorem sendMessage_flags (response : Option SendResult) (loadChatList : State → State)
    (s : State)
    (hload : ∀ s, (loadChatList s).autoScrollEnabled = s.autoScrollEnabled ∧
      (loadChatList s).userHasScrolled = s.userHasScrolled) :
    FlagsKeptOrReset s (sendMessage response loadChatList s) := by
  unfold sendMessage
  simp only []
  split
  · exact .of_eq rfl rfl
  · cases response with
    | none => exact FlagsKeptOrReset.stop _ _
    | some result =>
      simp only []
      split
      · exact FlagsKeptOrReset.stop _ _
      · split
        · rename_i s8 heq
          have h := streamChatResponse_flags_of_eq heq
          refine Or.inr ⟨h.1.trans ?_, h.2.trans ?_⟩
          · split
            · exact (hload _).1.trans rfl
            · rfl
          · split
            · exact (hload _).2.trans rfl
            · rfl
        · exact FlagsKeptOrReset.stop _ _

theorem continueMessage_flags (nodeId : String) (response : Option ContinueResult) (s : State) :
    FlagsKeptOrReset s (continueMessage nodeId response s) := by
  unfold continueMessage
  simp only []
  split
  · exact .of_eq rfl rfl
  · cases response with
    | none => exact FlagsKeptOrReset.stop _ _
    | some result =>
      simp only []
      split
      · exact FlagsKeptOrReset.stop _ _
      · split
        · rename_i s4 heq
          have h := streamChatResponse_flags_of_eq heq
          exact Or.inr ⟨h.1, h.2⟩
        · exact FlagsKeptOrReset.stop _ _

theorem saveEdit_flags (response : Option EditResult) (tree : Option TreeData) (s : State) :
    FlagsKeptOrReset s (saveEdit response tree s) := by
  unfold saveEdit
  cases response with
  | none => exact .of_eq rfl rfl
  | some result =>
    simp only []
    split
    · split
      · split
        · rename_i s7 heq
          have h := streamChatResponse_flags_of_eq heq
          exact Or.inr ⟨h.1, h.2⟩
        · exact FlagsKeptOrReset.stop _ _
      · exact .of_eq (switchToChat_flags _ tree _).1 (switchToChat_flags _ tree _).2
    · exact .of_eq rfl rfl

theorem onmessage_flags (k : Nat) (ev : StreamEvent) (s : State) :
    FlagsKeptOrReset s (onmessage k ev s) := by
  unfold onmessage
  split
  · cases ev with
    | status c => exact .of_eq rfl rfl
    | timings t =>
      simp only [handleMessage]
      split <;> exact .of_eq rfl rfl
    | content c =>
      simp only [handleMessage]
      exact .of_eq (scrollToBottom_flags _).1 (scrollToBottom_flags _).2
    | reasoning_content c => exact .of_eq rfl rfl
    | tool_call n x =>
      simp only [handleMessage]
      exact .of_eq (scrollToBottom_flags _).1 (scrollToBottom_flags _).2
    | tool_result r =>
      simp only [handleMessage]
      exact .of_eq (scrollToBottom_flags _).1 (scrollToBottom_flags _).2
    | finished x => exact FlagsKeptOrReset.stop _ _
    | error x => exact FlagsKeptOrReset.stop _ _
    | other x => exact .of_eq rfl rfl
  · exact .of_eq rfl rfl

theorem onerror_flags (k : Nat) (s : State) : FlagsKeptOrReset s (onerror k s) := by
  unfold onerror
  split
  · exact FlagsKeptOrReset.stop _ _
  · exact .of_eq rfl rfl

theorem invariant_of_flagsKeptOrReset {s t : State} (h : FlagsKeptOrReset s t)
    (hs : s.autoScrollEnabled = true ↔ s.userHasScrolled = false) :
    t.autoScrollEnabled = true ↔ t.userHasScrolled = false := by
  rcases h with ⟨h1, h2⟩ | ⟨h1, h2⟩
  · rw [h1, h2]; exact hs
  · simp [h1, h2]

/-- A scroll event keeps the two flags opposite to each other. -/
theorem handleChatScroll_invariant (scrollHeight scrollTop clientHeight : Int) (s : State)
    (hs : s.autoScrollEnabled = true ↔ s.userHasScrolled = false) :
    (handleChatScroll scrollHeight scrollTop clientHeight s).autoScrollEnabled = true ↔
      (handleChatScroll scrollHeight scrollTop clientHeight s).userHasScrolled = false := by
  unfold handleChatScroll
  simp only []
  split_ifs <;> simp_all

theorem PageStep.apply_invariant (step : PageStep) (s : State)
    (hstep : step.SidebarKeepsFlags)
    (hs : s.autoScrollEnabled = true ↔ s.userHasScrolled = false) :
    (step.apply s).autoScrollEnabled = true ↔ (step.apply s).userHasScrolled = false := by
  cases step with
  | scroll h t c => exact handleChatScroll_invariant h t c s hs
  | stop => exact invariant_of_flagsKeptOrReset (FlagsKeptOrReset.stop s s) hs
  | start => simp [PageStep.apply, startStream]
  | send r l => exact invariant_of_flagsKeptOrReset (sendMessage_flags r l s hstep) hs
  | «continue» n r => exact invariant_of_flagsKeptOrReset (continueMessage_flags n r s) hs
  | edit r t => exact invariant_of_flagsKeptOrReset (saveEdit_flags r t s) hs
  | message k ev => exact invariant_of_flagsKeptOrReset (onmessage_flags k ev s) hs
  | error k => exact invariant_of_flagsKeptOrReset (onerror_flags k s) hs
  | streaming b => exact hs

theorem runSteps_invariant (steps : List PageStep) :
    ∀ (s : State), (∀ step ∈ steps, step.SidebarKeepsFlags) →
      (s.autoScrollEnabled = true ↔ s.userHasScrolled = false) →
      ((runSteps steps s).autoScrollEnabled = true ↔ (runSteps steps s).userHasScrolled = false) := by
  induction steps with
  | nil => intro s _ hs; exact hs
  | cons step steps ih =>
    intro s hall hs
    exact ih (step.apply s) (fun st hst => hall st (List.mem_cons_of_mem _ hst))
      (PageStep.apply_invariant step s (hall step (List.mem_cons_self _ _)) hs)

/-- In new mode `streamChatResponse` returns normally, so the `catch` of its
caller is not entered. -/
theorem streamChatResponse_new_state (nodeId : String) (t : State) (onCatch : State → State) :
    (match streamChatResponse nodeId false t with
      | .normal u => u
      | .thrown u => onCatch u) = (streamChatResponse nodeId false t).state := by
  cases h : streamChatResponse nodeId false t with
  | normal u => rfl
  | thrown u =>
    have hn := (streamChatResponse_new nodeId t).1
    rw [h] at hn
    cases hn

/-- The stream-start step is the one the three functions take. -/
theorem startStream_in_actions (s : State) (nodeId : String) (loadChatList : State → State)
    (tree : Option TreeData) (result : EditResult)
    (hmessage : jsTrim s.messageInput ≠ "") (hidle : s.isStreaming = false)
    (hsuccess : result.success = true) (hgenerate : result.should_generate = true) :
    sendMessage none loadChatList s =
      stopGeneration (setStatus "Error sending message"
        { setStatus "Sending message..." (startStream s) with
          requests := s.requests ++
            [Request.send s.currentChatId (jsTrim s.messageInput) s.currentFiles] }) ∧
    continueMessage nodeId none s =
      stopGeneration (setStatus "Error continuing message"
        { setStatus "Continuing generation..." (startStream s) with
          requests := s.requests ++ [Request.continue s.currentChatId nodeId] }) ∧
    saveEdit (some result) tree s =
      (streamChatResponse result.node_id false
        (setStatus "Generating response..." (startStream
          (switchToChat s.currentChatId tree (closeEditModal
            { setStatus "Saving edit..." s with
              requests := s.requests ++
                [Request.edit s.currentChatId s.editingNodeId s.editTextarea] }))))).state := by
  refine ⟨?_, ?_, ?_⟩
  · simp [sendMessage, hmessage, hidle, startStream, setStatus]
  · simp [continueMessage, hidle, startStream, setStatus]
  · simp only [saveEdit, hsuccess, hgenerate, if_true]
    exact streamChatResponse_new_state result.node_id _
      (fun u => stopGeneration (setStatus "Error generating response" u))

/-- C14: in every state reached from a state with `autoScrollEnabled = true`
and `userHasScrolled = false` by any sequence of scroll events (at any scroll
position, whatever `isStreaming` is), calls of `stopGeneration`, stream-start
steps, whole calls of `sendMessage`, `continueMessage` and `saveEdit`, and
deliveries of stream messages and channel errors, `autoScrollEnabled` holds
exactly when `userHasScrolled` is false; and `handleChatScroll` returns the
state unchanged when `isStreaming` is false. -/
theorem C14_autoScroll_flags_invariant (initial : State) (steps : List PageStep)
    (scrollHeight scrollTop clientHeight : Int) (s : State)
    (hauto : initial.autoScrollEnabled = true) (huser : initial.userHasScrolled = false)
    (hsidebar : ∀ step ∈ steps, step.SidebarKeepsFlags) :
    ((runSteps steps initial).autoScrollEnabled = true ↔
      (runSteps steps initial).userHasScrolled = false) ∧
    (s.isStreaming = false → handleChatScroll scrollHeight scrollTop clientHeight s = s) := by
  refine ⟨runSteps_invariant steps initial hsidebar (by simp [hauto, huser]), ?_⟩
  intro h
  simp [handleChatScroll, h]

/-- C14, from the initial page: after a stream start and a scroll away from
the bottom the flags are `false` and `true`; scrolling back to the bottom
restores them; and a scroll event on the idle initial page changes nothing. -/
theorem C14_example_scroll_up_while_streaming :
    (State.initial.autoScrollEnabled = true ∧ State.initial.userHasScrolled = false ∧
      State.initial.isStreaming = false) ∧
    ((runSteps [PageStep.start, PageStep.scroll 1000 0 500] State.initial).autoScrollEnabled =
        false ∧
      (runSteps [PageStep.start, PageStep.scroll 1000 0 500] State.initial).userHasScrolled =
        true ∧
      (runSteps [PageStep.start, PageStep.scroll 1000 0 500, PageStep.scroll 1000 495 500]
        State.initial).autoScrollEnabled = true) ∧
    (((runSteps [PageStep.start, PageStep.scroll 1000 0 500] State.initial).autoScrollEnabled =
        true ↔
      (runSteps [PageStep.start, PageStep.scroll 1000 0 500] State.initial).userHasScrolled =
        false) ∧
    (State.initial.isStreaming = false →
      handleChatScroll 1000 0 500 State.initial = State.initial)) :=
  ⟨⟨by decide, by decide, by decide⟩, ⟨by decide, by decide, by decide⟩,
    C14_autoScroll_flags_invariant State.initial [PageStep.start, PageStep.scroll 1000 0 500]
      1000 0 500 State.initial (by decide) (by decide)
      (by intro step hstep; simp at hstep; rcases hstep with rfl | rfl <;> trivial)⟩

end LLMUI
